import Mathlib

/-!
Verification development for the `can-retire` projection and taxation engine.

The TypeScript engine (`src/engine/tax.ts`, `src/engine/cpp.ts`,
`src/engine/projection.ts`) is shallowly embedded here over exact rational
arithmetic (`ℚ` stands for the IEEE numbers of the source; all constants are
exact decimals).  JavaScript `undefined`-able values are embedded as `Option`,
JavaScript truthiness of a number (`x || d`, `x && …`) is modelled explicitly
(`0` is falsy), and an array access that would dereference `undefined` is
modelled as `Option.none` (a thrown `TypeError`).  Randomness
(`Math.random` via the Box–Muller transform) is modelled as an explicit
oracle stream of standard-normal draws passed to the simulator.
-/

set_option maxRecDepth 20000
set_option maxHeartbeats 2000000

attribute [local semireducible] Rat.add Rat.sub Rat.mul Rat.inv Rat.ofScientific

namespace CanRetire

/-- A tax bracket from `types.ts`: the income threshold where the bracket
starts and the marginal rate applying above it. -/
structure TaxBracket where
  threshold : ℚ
  rate : ℚ
  deriving DecidableEq, Repr

/-- `TAX_CONSTANTS.federalBrackets` (2025 values, effective 14.5% first rate). -/
def federalBrackets : List TaxBracket :=
  [⟨0, 0.145⟩, ⟨57375, 0.205⟩, ⟨114750, 0.26⟩, ⟨177882, 0.29⟩, ⟨253414, 0.33⟩]

def abBrackets : List TaxBracket :=
  [⟨0, 0.08⟩, ⟨60000, 0.10⟩, ⟨151234, 0.12⟩, ⟨181481, 0.13⟩, ⟨241974, 0.14⟩, ⟨362961, 0.15⟩]

def bcBrackets : List TaxBracket :=
  [⟨0, 0.0506⟩, ⟨49279, 0.077⟩, ⟨98560, 0.105⟩, ⟨113158, 0.1229⟩, ⟨137407, 0.147⟩,
   ⟨186306, 0.168⟩, ⟨259829, 0.205⟩]

def mbBrackets : List TaxBracket :=
  [⟨0, 0.108⟩, ⟨47000, 0.1275⟩, ⟨100000, 0.174⟩]

def nbBrackets : List TaxBracket :=
  [⟨0, 0.094⟩, ⟨52333, 0.14⟩, ⟨104666, 0.16⟩, ⟨170000, 0.175⟩, ⟨200000, 0.195⟩]

def nlBrackets : List TaxBracket :=
  [⟨0, 0.087⟩, ⟨44192, 0.145⟩, ⟨88382, 0.158⟩, ⟨157792, 0.178⟩, ⟨220910, 0.198⟩,
   ⟨281160, 0.208⟩, ⟨557250, 0.213⟩, ⟨1109430, 0.218⟩]

def nsBrackets : List TaxBracket :=
  [⟨0, 0.0879⟩, ⟨30507, 0.1495⟩, ⟨61015, 0.1667⟩, ⟨95883, 0.175⟩, ⟨154650, 0.21⟩]

def ntBrackets : List TaxBracket :=
  [⟨0, 0.059⟩, ⟨51964, 0.086⟩, ⟨103930, 0.122⟩, ⟨168967, 0.1405⟩]

def nuBrackets : List TaxBracket :=
  [⟨0, 0.04⟩, ⟨54707, 0.07⟩, ⟨109413, 0.09⟩, ⟨177881, 0.115⟩]

def onBrackets : List TaxBracket :=
  [⟨0, 0.0505⟩, ⟨52886, 0.0915⟩, ⟨105775, 0.1116⟩, ⟨150000, 0.1216⟩, ⟨220000, 0.1316⟩]

def peBrackets : List TaxBracket :=
  [⟨0, 0.095⟩, ⟨33328, 0.1347⟩, ⟨64656, 0.166⟩, ⟨105000, 0.1762⟩, ⟨140000, 0.19⟩]

def qcBrackets : List TaxBracket :=
  [⟨0, 0.14⟩, ⟨53255, 0.19⟩, ⟨106495, 0.24⟩, ⟨129590, 0.2575⟩]

def skBrackets : List TaxBracket :=
  [⟨0, 0.105⟩, ⟨53463, 0.125⟩, ⟨152750, 0.145⟩]

def ytBrackets : List TaxBracket :=
  [⟨0, 0.064⟩, ⟨57375, 0.09⟩, ⟨114750, 0.109⟩, ⟨177882, 0.128⟩, ⟨500000, 0.15⟩]

/-- `TAX_CONSTANTS.provincialBrackets` as an association table from
jurisdiction code to bracket list (the JS object keyed by code). -/
def provincialTable : List (String × List TaxBracket) :=
  [("AB", abBrackets), ("BC", bcBrackets), ("MB", mbBrackets), ("NB", nbBrackets),
   ("NL", nlBrackets), ("NS", nsBrackets), ("NT", ntBrackets), ("NU", nuBrackets),
   ("ON", onBrackets), ("PE", peBrackets), ("QC", qcBrackets), ("SK", skBrackets),
   ("YT", ytBrackets)]

/-- `TAX_CONSTANTS.provincialBrackets[province]` (`undefined` when absent). -/
def provincialBrackets (province : String) : Option (List TaxBracket) :=
  List.lookup province provincialTable

/-- `TAX_CONSTANTS.basicPersonalAmount.federal` (2025). -/
def federalBPA : ℚ := 16129

/-- `TAX_CONSTANTS.basicPersonalAmount` per-province entries. -/
def basicPersonalAmount (province : String) : Option ℚ :=
  if province = "AB" then some 22323
  else if province = "BC" then some 12932
  else if province = "MB" then some 15780
  else if province = "NB" then some 13396
  else if province = "NL" then some 11067
  else if province = "NS" then some 11744
  else if province = "NT" then some 17842
  else if province = "NU" then some 19274
  else if province = "ON" then some 12747
  else if province = "PE" then some 14650
  else if province = "QC" then some 18571
  else if province = "SK" then some 19491
  else if province = "YT" then some 16129
  else none

/-- `TAX_CONSTANTS.oas.clawbackThreshold` (2025), the default `threshold`
argument of `calculateOASClawback`. -/
def oasClawbackThreshold : ℚ := 93454

/-- The `provincialDTCRates` table inside `calculateIncomeTax`. -/
def provincialDTCRates (province : String) : Option ℚ :=
  if province = "AB" then some 0.0812
  else if province = "BC" then some 0.12
  else if province = "MB" then some 0.08
  else if province = "NB" then some 0.14
  else if province = "NL" then some 0.0635
  else if province = "NS" then some 0.0885
  else if province = "NT" then some 0.1155
  else if province = "NU" then some 0.0551
  else if province = "ON" then some 0.10
  else if province = "PE" then some 0.1063
  else if province = "QC" then some 0.117
  else if province = "SK" then some 0.11
  else if province = "YT" then some 0.1502
  else none

/-- `taxRates.provincialBrackets[province] || taxRates.provincialBrackets['ON']`:
a JavaScript array is always truthy, so the fallback fires exactly when the
lookup is `undefined`. -/
def resolvedBrackets (province : String) : List TaxBracket :=
  (provincialBrackets province).getD onBrackets

/-- `taxRates.basicPersonalAmount[province] || taxRates.basicPersonalAmount['ON']`
(no shipped amount is `0`, so JS falsiness coincides with `undefined`). -/
def resolvedBPA (province : String) : ℚ :=
  (basicPersonalAmount province).getD 12747

/-- `provincialDTCRates[province] || 0.10`. -/
def resolvedDTCRate (province : String) : ℚ :=
  (provincialDTCRates province).getD 0.10

/-- `brackets[0].rate`; the resolved bracket lists are never empty, so the
`0` default of the empty case is unreachable at every call site. -/
def firstBracketRate (brackets : List TaxBracket) : ℚ :=
  match brackets with
  | [] => 0
  | b :: _ => b.rate

/-- `calculateTieredTax` from `tax.ts`: accumulate
`rate_i * (min(income, nextThreshold_i) - threshold_i)` over brackets whose
(inflation-scaled) threshold the income exceeds; the last bracket has no upper
cap (`Infinity` in the source). -/
def calculateTieredTax (income : ℚ) (brackets : List TaxBracket) (inflationFactor : ℚ) : ℚ :=
  match brackets with
  | [] => 0
  | [b] =>
      if income > b.threshold * inflationFactor then
        (income - b.threshold * inflationFactor) * b.rate
      else 0
  | b :: b2 :: rest =>
      (if income > b.threshold * inflationFactor then
        (min income (b2.threshold * inflationFactor) - b.threshold * inflationFactor) * b.rate
      else 0)
      + calculateTieredTax income (b2 :: rest) inflationFactor

/-- `calculateOHP`: the Ontario Health Premium band table, bands indexed by the
inflation factor. -/
def calculateOHP (income : ℚ) (inflationFactor : ℚ) : ℚ :=
  if income ≤ 20000 * inflationFactor then 0
  else if income ≤ 36000 * inflationFactor then 300
  else if income ≤ 48000 * inflationFactor then 450
  else if income ≤ 72000 * inflationFactor then 600
  else if income ≤ 200000 * inflationFactor then 750
  else 900

/-- `calculateOntarioSurtax`: two cumulative tiers (20% and 36%) on basic
provincial tax above indexed thresholds. -/
def calculateOntarioSurtax (basicProvTax : ℚ) (inflationFactor : ℚ) : ℚ :=
  if basicProvTax ≤ 0 then 0
  else
    (if basicProvTax > 5710 * inflationFactor then
      (basicProvTax - 5710 * inflationFactor) * 0.20
    else 0)
    + (if basicProvTax > 7307 * inflationFactor then
      (basicProvTax - 7307 * inflationFactor) * 0.36
    else 0)

/-- `calculateIncomeTax` from `tax.ts` (with the `taxRates` parameter fixed to
`TAX_CONSTANTS`, the default used at every call site of the engine).  The three
trailing source defaults (`age = 0`, `eligiblePensionIncome = 0`,
`grossedUpDividends = 0`) are passed explicitly by the callers embedded here. -/
def calculateIncomeTax (taxableIncome : ℚ) (province : String)
    (inflationFactor age eligiblePensionIncome grossedUpDividends : ℚ) : ℚ :=
  let fedTax := calculateTieredTax taxableIncome federalBrackets inflationFactor
  let provTax := calculateTieredTax taxableIncome (resolvedBrackets province) inflationFactor
  let fedCredits := (federalBPA * inflationFactor) * 0.15
  let provRate := firstBracketRate (resolvedBrackets province)
  let provCredits := resolvedBPA province * inflationFactor * provRate
  let t0 := (fedTax - fedCredits) + (provTax - provCredits)
  let t1 :=
    if eligiblePensionIncome > 0 then
      let eligibleAmount := min eligiblePensionIncome (2000 * inflationFactor)
      t0 - eligibleAmount * 0.15 - eligibleAmount * 0.05
    else t0
  let t2 :=
    if grossedUpDividends > 0 then
      t1 - (grossedUpDividends * 0.1502 + grossedUpDividends * resolvedDTCRate province)
    else t1
  let t3 :=
    if age ≥ 65 then
      let reduction := max 0 ((taxableIncome - 45522 * inflationFactor) * 0.15)
      let claimable := max 0 (9028 * inflationFactor - reduction)
      t2 - claimable * 0.15 - claimable * 0.05
    else t2
  let t4 :=
    if province = "ON" then
      t3 + calculateOHP taxableIncome inflationFactor
        + calculateOntarioSurtax (provTax - provCredits) inflationFactor
    else t3
  max 0 t4

/-- `calculateOASClawback` from `tax.ts`: 15% of income over the indexed
threshold, capped at `maxClawback`. -/
def calculateOASClawback (netIncome maxClawback inflationFactor threshold : ℚ) : ℚ :=
  let indexedThreshold := threshold * inflationFactor
  if netIncome ≤ indexedThreshold then 0
  else min ((netIncome - indexedThreshold) * 0.15) maxClawback

/-- `calculateEstimatedCPP` from `cpp.ts` (the unused `taxConstants` parameter
is dropped). -/
def calculateEstimatedCPP (yearsContributed startAge inflationFactor : ℚ) : ℚ :=
  let maxAnnualCPP := 17196 * inflationFactor
  let percentOfMax := min 1 (max 0 (yearsContributed / 40))
  let monthsDiff := (startAge - 65) * 12
  let adjustmentFactor :=
    if monthsDiff < 0 then 1 - |monthsDiff| * 0.006
    else if monthsDiff > 0 then 1 + monthsDiff * 0.007
    else 1
  maxAnnualCPP * percentOfMax * adjustmentFactor

/-- `calculateOAS` from `cpp.ts`: indexed base benefit, deferral bonus past 65
(capped at 60 months) and the 10% step-up at age 75. -/
def calculateOAS (age startAge inflationFactor : ℚ) : ℚ :=
  if age < startAge then 0
  else
    let base0 := 8820 * inflationFactor
    let base1 :=
      if startAge > 65 then base0 * (1 + min ((startAge - 65) * 12) 60 * 0.006)
      else base0
    if age ≥ 75 then base1 * 1.1 else base1

/-- The result pair of `solveGrossWithdrawal`. -/
structure GrossTax where
  gross : ℚ
  tax : ℚ
  deriving DecidableEq, Repr

/-- Income tax plus OAS clawback at a given taxable income — the quantity whose
difference the gross-up solver equates with its marginal tax.  Matches the
solver's calls: `calculateIncomeTax(x, province, inflationFactor, undefined, age)`
plus `calculateOASClawback(x, baseOAS, inflationFactor)`. -/
def taxWithClawback (taxable baseOAS : ℚ) (province : String) (inflationFactor age : ℚ) : ℚ :=
  calculateIncomeTax taxable province inflationFactor age 0 0
    + calculateOASClawback taxable baseOAS inflationFactor oasClawbackThreshold

/-- The marginal tax the solver attributes to adding `gross` on top of
`currentTaxable`. -/
def marginalTaxOn (currentTaxable baseOAS : ℚ) (province : String)
    (inflationFactor age gross : ℚ) : ℚ :=
  taxWithClawback (currentTaxable + gross) baseOAS province inflationFactor age
    - taxWithClawback currentTaxable baseOAS province inflationFactor age

/-- The 20-iteration bisection loop of `solveGrossWithdrawal`, with the
post-loop fallback (`gross = (low + high) / 2` and its marginal tax) as the
fuel-exhausted case. -/
def solveGrossLoop (targetNet currentTaxable baseOAS : ℚ) (province : String)
    (inflationFactor age : ℚ) : ℕ → ℚ → ℚ → GrossTax
  | 0, low, high =>
      let gross := (low + high) / 2
      ⟨gross, marginalTaxOn currentTaxable baseOAS province inflationFactor age gross⟩
  | fuel + 1, low, high =>
      let mid := (low + high) / 2
      let marginalTax := marginalTaxOn currentTaxable baseOAS province inflationFactor age mid
      let netResult := mid - marginalTax
      if |netResult - targetNet| < 1 then ⟨mid, marginalTax⟩
      else if netResult < targetNet then
        solveGrossLoop targetNet currentTaxable baseOAS province inflationFactor age fuel mid high
      else
        solveGrossLoop targetNet currentTaxable baseOAS province inflationFactor age fuel low mid

/-- `solveGrossWithdrawal` from `projection.ts`: bisection over
`[targetNet, min(3 * targetNet, 10,000,000)]`, 20 iterations, $1 tolerance. -/
def solveGrossWithdrawal (targetNet currentTaxable baseOAS : ℚ) (province : String)
    (inflationFactor age : ℚ) : GrossTax :=
  if targetNet ≤ 0 then ⟨0, 0⟩
  else
    let low := targetNet
    let high0 := targetNet * 3
    let high := if high0 > 10000000 then 10000000 else high0
    solveGrossLoop targetNet currentTaxable baseOAS province inflationFactor age 20 low high

/-- Instrumented copy of `solveGrossLoop` that additionally reports whether the
result was produced by the in-loop `$1`-tolerance convergence check (`true`) or
by the post-loop fallback (`false`).  It mirrors `solveGrossLoop` line by line. -/
def solveGrossLoopC (targetNet currentTaxable baseOAS : ℚ) (province : String)
    (inflationFactor age : ℚ) : ℕ → ℚ → ℚ → GrossTax × Bool
  | 0, low, high =>
      let gross := (low + high) / 2
      (⟨gross, marginalTaxOn currentTaxable baseOAS province inflationFactor age gross⟩, false)
  | fuel + 1, low, high =>
      let mid := (low + high) / 2
      let marginalTax := marginalTaxOn currentTaxable baseOAS province inflationFactor age mid
      let netResult := mid - marginalTax
      if |netResult - targetNet| < 1 then (⟨mid, marginalTax⟩, true)
      else if netResult < targetNet then
        solveGrossLoopC targetNet currentTaxable baseOAS province inflationFactor age fuel mid high
      else
        solveGrossLoopC targetNet currentTaxable baseOAS province inflationFactor age fuel low mid

/-- Instrumented copy of `solveGrossWithdrawal` (see `solveGrossLoopC`); the
`targetNet ≤ 0` early return is reported as not-converged-by-tolerance. -/
def solveGrossWithdrawalC (targetNet currentTaxable baseOAS : ℚ) (province : String)
    (inflationFactor age : ℚ) : GrossTax × Bool :=
  if targetNet ≤ 0 then (⟨0, 0⟩, false)
  else
    let low := targetNet
    let high0 := targetNet * 3
    let high := if high0 > 10000000 then 10000000 else high0
    solveGrossLoopC targetNet currentTaxable baseOAS province inflationFactor age 20 low high

/-- JavaScript `x || d` on an optional number: `undefined`, and the falsy
number `0`, both select the default. -/
def jsOrQ (o : Option ℚ) (d : ℚ) : ℚ :=
  match o with
  | none => d
  | some v => if v = 0 then d else v

/-- JavaScript `Math.round` (half away from zero rounds up, as floor of x+1/2). -/
def jsRound (x : ℚ) : ℚ := ((⌊x + 1 / 2⌋ : ℤ) : ℚ)

/-- Association-list lookup on exact rational keys. -/
def lookupQ (a : ℚ) : List (ℚ × ℚ) → Option ℚ
  | [] => none
  | (k, v) :: rest => if a = k then some v else lookupQ a rest

/-- `RRIF_MINIMUMS`: federal RRIF minimum withdrawal factors by age. -/
def rrifMinimums : List (ℚ × ℚ) :=
  [(71, 0.0528), (72, 0.0540), (73, 0.0553), (74, 0.0567), (75, 0.0582),
   (76, 0.0598), (77, 0.0617), (78, 0.0636), (79, 0.0658), (80, 0.0682),
   (81, 0.0708), (82, 0.0738), (83, 0.0771), (84, 0.0808), (85, 0.0851),
   (86, 0.0899), (87, 0.0955), (88, 0.1021), (89, 0.1099), (90, 0.1192),
   (91, 0.1306), (92, 0.1449), (93, 0.1634), (94, 0.1879)]

/-- `getRRIFMinFactor`: flat 5% through age 70, flat 20% from 95, table lookup
between (`|| 0.06` for a non-integer age missing from the table). -/
def getRRIFMinFactor (age : ℚ) : ℚ :=
  if age ≤ 70 then 0.05
  else if age ≥ 95 then 0.2
  else jsOrQ (lookupQ age rrifMinimums) 0.06

/-- The open account's asset mix (fractions of interest, dividend, capital). -/
structure AssetMix where
  interest : ℚ
  dividend : ℚ
  capitalGain : ℚ
  deriving DecidableEq, Repr

/-- A registered account: just a balance. -/
structure AssetAccount where
  balance : ℚ
  deriving DecidableEq, Repr

/-- The open (non-registered) account with its adjusted cost base and mix. -/
structure NonRegisteredAccount where
  balance : ℚ
  adjustedCostBase : ℚ
  assetMix : AssetMix
  deriving DecidableEq, Repr

/-- `Person` from `types.ts` (fields the engine reads). -/
structure Person where
  age : ℚ
  retirementAge : ℚ
  lifeExpectancy : ℚ
  currentIncome : ℚ
  cppStartAge : ℚ
  cppContributedYears : ℚ
  oasStartAge : ℚ
  rrspMeltStartAge : Option ℚ
  rrspMeltAmount : Option ℚ
  rrsp : AssetAccount
  tfsa : AssetAccount
  nonRegistered : NonRegisteredAccount
  deriving DecidableEq, Repr

/-- Return assumptions; `volatility` is optional (stochastic mode only). -/
structure ReturnRates where
  interest : ℚ
  dividend : ℚ
  capitalGrowth : ℚ
  volatility : Option ℚ
  deriving DecidableEq, Repr

/-- A one-time expense (the engine reads only `amount` and trigger `age`). -/
structure OneTimeEvent where
  amount : ℚ
  age : ℚ
  deriving DecidableEq, Repr

/-- `SimulationInputs` from `types.ts` (fields the engine reads). -/
structure SimulationInputs where
  person : Person
  spouse : Option Person
  province : String
  inflationRate : ℚ
  preRetirementSpend : ℚ
  postRetirementSpend : ℚ
  oneTimeExpenses : Option (List OneTimeEvent)
  withdrawalStrategy : Option String
  returnRates : ReturnRates
  deriving DecidableEq, Repr

/-- The `accounts` sub-record of a result row. -/
structure AccountsOut where
  rrsp : ℚ
  tfsa : ℚ
  nonRegistered : ℚ
  nonRegisteredACB : ℚ
  deriving DecidableEq, Repr

/-- The `spouseAccounts` sub-record of a result row. -/
structure SpouseAccountsOut where
  rrsp : ℚ
  tfsa : ℚ
  nonRegistered : ℚ
  spouseNonRegisteredACB : ℚ
  deriving DecidableEq, Repr

/-- `SimulationResult`: one emitted record per simulated year
(`new Date().getFullYear()` is modelled as the fixed base year 2025). -/
structure SimulationResult where
  year : ℚ
  age : ℚ
  spouseAge : Option ℚ
  totalAssets : ℚ
  grossIncome : ℚ
  cppIncome : ℚ
  oasIncome : ℚ
  netIncome : ℚ
  spending : ℚ
  taxPaid : ℚ
  accounts : AccountsOut
  spouseAccounts : Option SpouseAccountsOut
  netEmploymentIncome : ℚ
  netCPPIncome : ℚ
  netOASIncome : ℚ
  netInvestmentIncome : ℚ
  reinvestedTFSA : ℚ
  reinvestedRRSP : ℚ
  reinvestedNonReg : ℚ
  personNetRRSP : ℚ
  spouseNetRRSP : ℚ
  personNetTFSA : ℚ
  spouseNetTFSA : ℚ
  personNetNonReg : ℚ
  spouseNetNonReg : ℚ
  totalTFSAWithdrawal : ℚ
  totalNonRegWithdrawal : ℚ
  totalRRSPWithdrawal : ℚ
  netRRSPWithdrawal : ℚ
  netTFSAWithdrawal : ℚ
  netNonRegWithdrawal : ℚ
  employmentIncome : ℚ
  investmentIncome : ℚ
  totalRealizedCapGains : ℚ
  inflationFactor : ℚ
  householdSurplus : ℚ

/-- `PersonAnnualBase`: the per-person forced-income summary of a year. -/
structure PersonAnnualBase where
  taxableIncome : ℚ
  tax : ℚ
  cppIncome : ℚ
  oasIncome : ℚ
  rrifWithdrawal : ℚ
  voluntaryRRSPWithdrawal : ℚ
  interestIncome : ℚ
  divIncome : ℚ
  employmentIncome : ℚ
  investmentIncomeNet : ℚ
  baseNetCash : ℚ
  deriving DecidableEq, Repr

/-- `simulatePersonBaseYear` from `projection.ts`: forced income sources (CPP,
OAS, RRIF minimum, voluntary melt, open-account yield, employment), base tax
and net cash.  The source mutates `person.rrsp.balance`; here the updated
person is returned alongside the summary. -/
def simulatePersonBaseYear (person : Person) (age : ℚ) (province : String)
    (rates : ReturnRates) (inflationFactor : ℚ) : Person × PersonAnnualBase :=
  let cppIncome :=
    if age ≥ person.cppStartAge then
      calculateEstimatedCPP person.cppContributedYears person.cppStartAge inflationFactor
    else 0
  let oasIncome := calculateOAS age person.oasStartAge inflationFactor
  let rrifWithdrawal := if age ≥ 72 then person.rrsp.balance * getRRIFMinFactor age else 0
  let rrspBal1 := person.rrsp.balance - rrifWithdrawal
  let meltStart := jsOrQ person.rrspMeltStartAge person.retirementAge
  let meltAmt := person.rrspMeltAmount.getD 0
  let voluntaryRRSPWithdrawal :=
    if meltAmt > 0 ∧ age ≥ meltStart ∧ age < 72 then min rrspBal1 meltAmt else 0
  let rrspBal2 := rrspBal1 - voluntaryRRSPWithdrawal
  let nonRegBalance := person.nonRegistered.balance
  let interestIncome := nonRegBalance * person.nonRegistered.assetMix.interest * rates.interest
  let divIncome := nonRegBalance * person.nonRegistered.assetMix.dividend * rates.dividend
  let divGrossUp := divIncome * 1.38
  let employmentIncome := if age < person.retirementAge then person.currentIncome else 0
  let baseTaxable := employmentIncome + cppIncome + oasIncome + rrifWithdrawal
    + voluntaryRRSPWithdrawal + interestIncome + divGrossUp
  let oasRecovery := calculateOASClawback baseTaxable oasIncome inflationFactor oasClawbackThreshold
  let totalTax := calculateIncomeTax baseTaxable province inflationFactor age 0 0 + oasRecovery
  let totalCashIn := employmentIncome + cppIncome + oasIncome + rrifWithdrawal
    + voluntaryRRSPWithdrawal + interestIncome + divIncome
  ({ person with rrsp := { balance := rrspBal2 } },
   { taxableIncome := baseTaxable
     tax := totalTax
     cppIncome := cppIncome
     oasIncome := oasIncome
     rrifWithdrawal := rrifWithdrawal
     voluntaryRRSPWithdrawal := voluntaryRRSPWithdrawal
     interestIncome := interestIncome
     divIncome := divIncome
     employmentIncome := employmentIncome
     investmentIncomeNet := interestIncome + divIncome
     baseNetCash := totalCashIn - totalTax })

/-- Context shared by the deficit-resolution waterfall closures. -/
structure DeficitCtx where
  pAlive : Bool
  sAlive : Bool
  pBase : Option PersonAnnualBase
  sBase : Option PersonAnnualBase
  province : String
  inflationFactor : ℚ
  deriving Repr

/-- The mutable locals of the deficit-resolution block of `runSimulation`. -/
structure DeficitState where
  p : Person
  s : Option Person
  remainingDeficit : ℚ
  pExtraRRSPGross : ℚ
  sExtraRRSPGross : ℚ
  pTFSAWithdrawal : ℚ
  sTFSAWithdrawal : ℚ
  pNonRegWithdrawal : ℚ
  sNonRegWithdrawal : ℚ
  pRealizedGains : ℚ
  sRealizedGains : ℚ
  deriving DecidableEq, Repr

/-- The guarded primary-person update inside `withdrawNonReg` (a no-op unless
the share is positive): realize gains through the ACB ratio, reduce the ACB
proportionally, reduce the balance by the share. -/
def drawNonRegP (st : DeficitState) (share bal : ℚ) : DeficitState :=
  if share > 0 then
    { st with
      pRealizedGains := st.pRealizedGains
        + share * max 0 (1 - st.p.nonRegistered.adjustedCostBase / bal)
      p := { st.p with nonRegistered := { st.p.nonRegistered with
               adjustedCostBase := st.p.nonRegistered.adjustedCostBase * (1 - share / bal)
               balance := st.p.nonRegistered.balance - share } }
      pNonRegWithdrawal := st.pNonRegWithdrawal + share }
  else st

/-- The guarded spouse update inside `withdrawNonReg`. -/
def drawNonRegS (st : DeficitState) (share bal : ℚ) : DeficitState :=
  if share > 0 then
    match st.s with
    | some sp =>
      { st with
        sRealizedGains := st.sRealizedGains
          + share * max 0 (1 - sp.nonRegistered.adjustedCostBase / bal)
        s := some { sp with nonRegistered := { sp.nonRegistered with
               adjustedCostBase := sp.nonRegistered.adjustedCostBase * (1 - share / bal)
               balance := sp.nonRegistered.balance - share } }
        sNonRegWithdrawal := st.sNonRegWithdrawal + share }
    | none => st
  else st

/-- The `withdrawNonReg` strategy helper: pool both spouses' open-account
balances, take `min(total, remainingDeficit)`, split pro-rata by balance,
realize gains through the ACB ratio and reduce the ACB proportionally. -/
def withdrawNonReg (ctx : DeficitCtx) (st : DeficitState) : DeficitState :=
  if st.remainingDeficit ≤ 0 then st
  else
    let pBal := if ctx.pAlive then st.p.nonRegistered.balance else 0
    let sBal :=
      match st.s with
      | some sp => if ctx.sAlive then sp.nonRegistered.balance else 0
      | none => 0
    let total := pBal + sBal
    if total > 0 then
      let take := min total st.remainingDeficit
      let pShare := if pBal > 0 then pBal / total * take else 0
      let sShare := if sBal > 0 then sBal / total * take else 0
      let st2 := drawNonRegS (drawNonRegP st pShare pBal) sShare sBal
      { st2 with remainingDeficit := st2.remainingDeficit - take }
    else st

/-- The guarded primary-person update inside `withdrawTFSA`. -/
def drawTFSAP (st : DeficitState) (share : ℚ) : DeficitState :=
  if share > 0 then
    { st with
      p := { st.p with tfsa := { balance := st.p.tfsa.balance - share } }
      pTFSAWithdrawal := st.pTFSAWithdrawal + share }
  else st

/-- The guarded spouse update inside `withdrawTFSA`. -/
def drawTFSAS (st : DeficitState) (share : ℚ) : DeficitState :=
  if share > 0 then
    match st.s with
    | some sp =>
      { st with
        s := some { sp with tfsa := { balance := sp.tfsa.balance - share } }
        sTFSAWithdrawal := st.sTFSAWithdrawal + share }
    | none => st
  else st

/-- The `withdrawTFSA` strategy helper: pool both spouses' tax-free balances
and split the take pro-rata by balance. -/
def withdrawTFSA (ctx : DeficitCtx) (st : DeficitState) : DeficitState :=
  if st.remainingDeficit ≤ 0 then st
  else
    let pBal := if ctx.pAlive then st.p.tfsa.balance else 0
    let sBal :=
      match st.s with
      | some sp => if ctx.sAlive then sp.tfsa.balance else 0
      | none => 0
    let total := pBal + sBal
    if total > 0 then
      let take := min total st.remainingDeficit
      let pShare := if pBal > 0 then pBal / total * take else 0
      let sShare := if sBal > 0 then sBal / total * take else 0
      let st2 := drawTFSAS (drawTFSAP st pShare) sShare
      { st2 with remainingDeficit := st2.remainingDeficit - take }
    else st

/-- The `doWithdraw` closure inside `withdrawRRSP`: solve the gross needed for
`netReq` on top of the person's base taxable income (plus their taxable share
of realized gains), cap at the deferred balance, and — only when capped —
recompute the net actually obtained from the marginal tax on the capped gross
(as in the source, the `originalTax` of that branch omits the `age` argument). -/
def doRRSPWithdraw (personObj : Person) (base : PersonAnnualBase) (netReq myGains : ℚ)
    (province : String) (inflationFactor : ℚ) : Person × ℚ × ℚ :=
  if netReq ≤ 0 ∨ personObj.rrsp.balance ≤ 0 then (personObj, 0, 0)
  else
    let currentTaxable := base.taxableIncome + myGains * 0.5
    let gross := (solveGrossWithdrawal netReq currentTaxable base.oasIncome province
      inflationFactor personObj.age).gross
    let actualGross := min gross personObj.rrsp.balance
    let p2 := { personObj with rrsp := { balance := personObj.rrsp.balance - actualGross } }
    let actualNet :=
      if actualGross < gross then
        let newTaxable := currentTaxable + actualGross
        let originalTax := calculateIncomeTax currentTaxable province inflationFactor 0 0 0
          + calculateOASClawback currentTaxable base.oasIncome inflationFactor oasClawbackThreshold
        let newTax := calculateIncomeTax newTaxable province inflationFactor personObj.age 0 0
          + calculateOASClawback newTaxable base.oasIncome inflationFactor oasClawbackThreshold
        actualGross - (newTax - originalTax)
      else netReq
    (p2, actualGross, actualNet)

/-- The primary-person half of `withdrawRRSP`: run `doWithdraw` against the
person's own tax base when alive and a base record exists. -/
def rrspDrawP (ctx : DeficitCtx) (st : DeficitState) (netReq : ℚ) : DeficitState :=
  match ctx.pBase with
  | some b =>
    if ctx.pAlive then
      let r := doRRSPWithdraw st.p b netReq st.pRealizedGains ctx.province ctx.inflationFactor
      { st with
        p := r.1
        pExtraRRSPGross := st.pExtraRRSPGross + r.2.1
        remainingDeficit := st.remainingDeficit - r.2.2 }
    else st
  | none => st

/-- The spouse half of `withdrawRRSP`. -/
def rrspDrawS (ctx : DeficitCtx) (st : DeficitState) (netReq : ℚ) : DeficitState :=
  match st.s, ctx.sBase with
  | some sp, some b =>
    if ctx.sAlive then
      let r := doRRSPWithdraw sp b netReq st.sRealizedGains ctx.province ctx.inflationFactor
      { st with
        s := some r.1
        sExtraRRSPGross := st.sExtraRRSPGross + r.2.1
        remainingDeficit := st.remainingDeficit - r.2.2 }
    else st
  | _, _ => st

/-- The `withdrawRRSP` strategy helper: split the remaining net requirement
50/50 when both spouses are alive (otherwise assign it to the living one) and
run `doWithdraw` for each against their own tax base. -/
def withdrawRRSP (ctx : DeficitCtx) (st : DeficitState) : DeficitState :=
  if st.remainingDeficit ≤ 0 then st
  else
    let bothAlive : Bool := ctx.pAlive && ctx.sAlive && st.s.isSome
    let pNetReq := if bothAlive then st.remainingDeficit / 2
      else if ctx.pAlive then st.remainingDeficit else 0
    let sNetReq := if bothAlive then st.remainingDeficit / 2
      else if ctx.sAlive && st.s.isSome then st.remainingDeficit else 0
    rrspDrawS ctx (rrspDrawP ctx st pNetReq) sNetReq

/-- The outcome of the surplus-reinvestment waterfall of `runSimulation`. -/
structure SurplusOut where
  p : Person
  s : Option Person
  reinvestedTFSA : ℚ
  reinvestedRRSP : ℚ
  reinvestedNonReg : ℚ
  deriving DecidableEq, Repr

/-- Primary-person TFSA sub-step of the surplus waterfall: the amount added
to a living person's tax-free account, capped by the indexed limit. -/
def surplusAddPT (pAlive : Bool) (remaining tfsaLimit : ℚ) : ℚ :=
  if pAlive then min remaining tfsaLimit else 0

/-- Spouse TFSA sub-step of the surplus waterfall (only when a spouse exists,
is alive, and surplus remains). -/
def surplusAddST (s : Option Person) (sAlive : Bool) (remaining tfsaLimit : ℚ) : ℚ :=
  match s with
  | some _ => if sAlive ∧ remaining > 0 then min remaining tfsaLimit else 0
  | none => 0

/-- RRSP sub-step of the surplus waterfall for one person: room is 18% of
current income capped at the indexed $31,000 limit, only while alive, under
71, still working, and not running an RRSP melt. -/
def surplusAddR (alive : Bool) (age : ℚ) (person : Person) (remaining f : ℚ) : ℚ :=
  if alive ∧ age < 71 ∧ remaining > 0 ∧ person.currentIncome > 0 ∧ age < person.retirementAge ∧
      ¬(person.rrspMeltAmount.getD 0 > 0 ∧ age ≥ jsOrQ person.rrspMeltStartAge person.retirementAge) then
    min remaining (min (person.currentIncome * 0.18) (31000 * f))
  else 0

/-- Spouse RRSP sub-step of the surplus waterfall. -/
def surplusAddSR (s : Option Person) (sAge : Option ℚ) (sAlive : Bool) (remaining f : ℚ) : ℚ :=
  match s, sAge with
  | some sp, some sa => surplusAddR sAlive sa sp remaining f
  | _, _ => 0

/-- Open-account sub-step of the surplus waterfall for one person: half the
leftover when both spouses take it, all of it when this person alone does. -/
def surplusAddN (bothNR single : Bool) (remaining : ℚ) : ℚ :=
  if remaining > 0 then
    (if bothNR = true then remaining / 2 else if single = true then remaining else 0)
  else 0

/-- Step 4 of `runSimulation` (surplus allocation): indexed TFSA room per
living person (limit rounded to the nearest $500), RRSP room for a living,
still-working, not-melting person under 71, remainder into the open account
(balance and ACB both increased; split 50/50 when both spouses are alive).
Each sub-step takes the amount the source adds at that point; the persons are
then updated once with all their accumulated additions, which coincides with
the source's sequential mutation because each sub-step touches a different
account and reads only fields no earlier sub-step writes. -/
def allocateSurplus (p : Person) (s : Option Person) (pAlive sAlive : Bool)
    (pAge : ℚ) (sAge : Option ℚ) (surplus inflationFactor : ℚ) : SurplusOut :=
  let tfsaLimit := jsRound (7000 * inflationFactor / 500) * 500
  let addPT := surplusAddPT pAlive surplus tfsaLimit
  let remaining1 := surplus - addPT
  let addST := surplusAddST s sAlive remaining1 tfsaLimit
  let remaining2 := remaining1 - addST
  let addPR := surplusAddR pAlive pAge p remaining2 inflationFactor
  let remaining3 := remaining2 - addPR
  let addSR := surplusAddSR s sAge sAlive remaining3 inflationFactor
  let remaining4 := remaining3 - addSR
  let bothNR : Bool := pAlive && sAlive && s.isSome
  let addPN := surplusAddN bothNR pAlive remaining4
  let addSN := surplusAddN bothNR (!pAlive && sAlive) remaining4
  { p := { p with
      tfsa := { balance := p.tfsa.balance + addPT }
      rrsp := { balance := p.rrsp.balance + addPR }
      nonRegistered := { p.nonRegistered with
        balance := p.nonRegistered.balance + addPN
        adjustedCostBase := p.nonRegistered.adjustedCostBase + addPN } }
    s := s.map (fun sp => { sp with
      tfsa := { balance := sp.tfsa.balance + addST }
      rrsp := { balance := sp.rrsp.balance + addSR }
      nonRegistered := { sp.nonRegistered with
        balance := sp.nonRegistered.balance + addSN
        adjustedCostBase := sp.nonRegistered.adjustedCostBase + addSN } })
    reinvestedTFSA := addPT + addST
    reinvestedRRSP := addPR + addSR
    reinvestedNonReg := if remaining4 > 0 then remaining4 else 0 }

/-- The per-person final recomputation of Step 5 of `runSimulation`. -/
structure FinalStats where
  finalTaxable : ℚ
  finalTax : ℚ
  totalRRSP : ℚ
  taxableGains : ℚ
  deriving DecidableEq, Repr

/-- `getFinalStats`: final taxable income with total deferred-account income
and 50%-included realized gains, final tax plus recomputed clawback. -/
def getFinalStats (base : PersonAnnualBase) (extraRRSP realizedGains age : ℚ)
    (province : String) (inflationFactor : ℚ) : FinalStats :=
  let totalRRSP := base.rrifWithdrawal + base.voluntaryRRSPWithdrawal + extraRRSP
  let taxableGains := realizedGains * 0.5
  let finalTaxable := base.employmentIncome + base.cppIncome + base.oasIncome + totalRRSP
    + base.interestIncome + base.divIncome * 1.38 + taxableGains
  let oasRecovery := calculateOASClawback finalTaxable base.oasIncome inflationFactor oasClawbackThreshold
  let finalTax := calculateIncomeTax finalTaxable province inflationFactor age 0 0 + oasRecovery
  { finalTaxable := finalTaxable, finalTax := finalTax
    totalRRSP := totalRRSP, taxableGains := taxableGains }

/-- The `calcNet` closure: allocate total tax to an income source pro-rata. -/
def calcNet (gross totalGross totalTax : ℚ) : ℚ :=
  if totalGross ≤ 0 then 0 else gross - gross / totalGross * totalTax

/-- Per-year derived context: ages, liveness, inflation factor, spending
target and (possibly volatility-perturbed) return rates.  `z yearOffset` is
the standard-normal draw `boxMullerRandom()` would produce in stochastic mode. -/
structure YearEnv where
  pAge : ℚ
  sAge : Option ℚ
  pAlive : Bool
  sAlive : Bool
  inflationFactor : ℚ
  targetSpend : ℚ
  rates : ReturnRates

/-- Builds the per-year context (the prologue of the `runSimulation` loop
body): ages and liveness (`sAge` must be truthy, i.e. nonzero, for the spouse
to count as alive, as in the source), inflation factor, retirement state,
one-time expenses, target spend and this year's return rates. -/
def yearEnv (inputs : SimulationInputs) (stochastic : Bool) (z : ℕ → ℚ)
    (yearOffset : ℕ) (p : Person) (s : Option Person) : YearEnv :=
  let pAge := p.age + (yearOffset : ℚ)
  let sAge : Option ℚ := s.map (fun sp => sp.age + (yearOffset : ℚ))
  let pAlive : Bool := decide (pAge ≤ p.lifeExpectancy)
  let sAlive : Bool :=
    match s, sAge with
    | some sp, some sa => !(decide (sa = 0)) && decide (sa ≤ sp.lifeExpectancy)
    | _, _ => false
  let inflationFactor := (1 + inputs.inflationRate) ^ yearOffset
  let isRetired : Bool :=
    (if pAlive then decide (pAge ≥ p.retirementAge) else true)
    && (match s, sAge with
        | some sp, some sa => if sAlive then decide (sa ≥ sp.retirementAge) else true
        | _, _ => true)
  let annualOneTimeExpenses :=
    (((inputs.oneTimeExpenses.getD []).filter (fun e => decide (e.age = pAge))).map
      (fun e => e.amount)).sum
  let targetSpend :=
    (if isRetired then inputs.postRetirementSpend else inputs.preRetirementSpend)
      * inflationFactor + annualOneTimeExpenses
  let rates :=
    if stochastic ∧ ¬inputs.returnRates.volatility.getD 0 = 0 then
      { inputs.returnRates with
        capitalGrowth := inputs.returnRates.capitalGrowth
          + inputs.returnRates.volatility.getD 0 * z yearOffset }
    else inputs.returnRates
  { pAge := pAge, sAge := sAge, pAlive := pAlive, sAlive := sAlive
    inflationFactor := inflationFactor, targetSpend := targetSpend, rates := rates }

/-- Output of Step 1 of the year loop (base income and mandatory flows for
each living person). -/
structure BaseOut where
  p1 : Person
  s1 : Option Person
  pBase : Option PersonAnnualBase
  sBase : Option PersonAnnualBase

/-- Step 1 of the year loop: run `simulatePersonBaseYear` for each living
person (dead persons are left untouched with no base record). -/
def baseStep (province : String) (env : YearEnv) (p : Person) (s : Option Person) : BaseOut :=
  let pPair :=
    if env.pAlive then some (simulatePersonBaseYear p env.pAge province env.rates env.inflationFactor)
    else none
  let sPair :=
    match s, env.sAge with
    | some sp, some sa =>
      if env.sAlive then some (simulatePersonBaseYear sp sa province env.rates env.inflationFactor)
      else none
    | _, _ => none
  { p1 := match pPair with | some pr => pr.1 | none => p
    s1 :=
      match s, sPair with
      | some _, some pr => some pr.1
      | some sp, none => some sp
      | none, _ => none
    pBase := pPair.map (fun pr => pr.2)
    sBase := sPair.map (fun pr => pr.2) }

/-- Step 3 of the year loop: resolve a positive deficit through the
policy-ordered withdrawal waterfall (`'rrsp-first'` drains the deferred
account first; the default tax-efficient order leaves it last). -/
def deficitStep (inputs : SimulationInputs) (env : YearEnv) (b : BaseOut)
    (deficit : ℚ) : DeficitState :=
  let ctx : DeficitCtx :=
    { pAlive := env.pAlive, sAlive := env.sAlive, pBase := b.pBase, sBase := b.sBase
      province := inputs.province, inflationFactor := env.inflationFactor }
  let st0 : DeficitState :=
    { p := b.p1, s := b.s1, remainingDeficit := deficit
      pExtraRRSPGross := 0, sExtraRRSPGross := 0
      pTFSAWithdrawal := 0, sTFSAWithdrawal := 0
      pNonRegWithdrawal := 0, sNonRegWithdrawal := 0
      pRealizedGains := 0, sRealizedGains := 0 }
  if deficit > 0 then
    if inputs.withdrawalStrategy = some "rrsp-first" then
      withdrawTFSA ctx (withdrawNonReg ctx (withdrawRRSP ctx st0))
    else
      withdrawRRSP ctx (withdrawTFSA ctx (withdrawNonReg ctx st0))
  else st0

/-- Step 4 of the year loop: reinvest a positive surplus. -/
def surplusStep (env : YearEnv) (stw : DeficitState) (surplus : ℚ) : SurplusOut :=
  if surplus > 0 then
    allocateSurplus stw.p stw.s env.pAlive env.sAlive env.pAge env.sAge surplus env.inflationFactor
  else
    { p := stw.p, s := stw.s, reinvestedTFSA := 0, reinvestedRRSP := 0, reinvestedNonReg := 0 }

/-- Step 6 of the year loop, for one person: deferred and tax-free balances
grow by the full capital-growth rate; the open account grows only on its
capital-gain-weighted share of the asset mix. -/
def applyGrowth (rates : ReturnRates) (person : Person) : Person :=
  { person with
    rrsp := { balance := person.rrsp.balance * (1 + rates.capitalGrowth) }
    tfsa := { balance := person.tfsa.balance * (1 + rates.capitalGrowth) }
    nonRegistered := { person.nonRegistered with
      balance := person.nonRegistered.balance
        * (1 + person.nonRegistered.assetMix.capitalGain * rates.capitalGrowth) } }

/-- Step 6 of the year loop for the optional spouse: growth applies only
while alive. -/
def growSpouse (sAlive : Bool) (rates : ReturnRates) (os : Option Person) : Option Person :=
  match os with
  | some sp => if sAlive then some (applyGrowth rates sp) else some sp
  | none => none

/-- The result record pushed at the end of the year loop body (Step 7: total
tax is allocated to income sources pro-rata through `calcNet`). -/
def buildRecord (yearOffset : ℕ) (env : YearEnv) (b : BaseOut) (stw : DeficitState)
    (so : SurplusOut) (pFinal sFinal : Option FinalStats) (p3 : Person)
    (s3 : Option Person) (surplus : ℚ) : SimulationResult :=
  let totalTaxPaid := ((pFinal.map (fun f => f.finalTax)).getD 0)
    + ((sFinal.map (fun f => f.finalTax)).getD 0)
  let pGrossTotal := (pFinal.map (fun f => f.finalTaxable)).getD 0
  let sGrossTotal := (sFinal.map (fun f => f.finalTaxable)).getD 0
  let pTax := (pFinal.map (fun f => f.finalTax)).getD 0
  let sTax := (sFinal.map (fun f => f.finalTax)).getD 0
  let pNetEmp := calcNet ((b.pBase.map (fun x => x.employmentIncome)).getD 0) pGrossTotal pTax
  let pNetCPP := calcNet ((b.pBase.map (fun x => x.cppIncome)).getD 0) pGrossTotal pTax
  let pNetOAS := calcNet ((b.pBase.map (fun x => x.oasIncome)).getD 0) pGrossTotal pTax
  let pNetRRSP := calcNet ((pFinal.map (fun f => f.totalRRSP)).getD 0) pGrossTotal pTax
  let pInvTax :=
    if pGrossTotal > 0 then
      (((b.pBase.map (fun x => x.interestIncome)).getD 0
        + ((b.pBase.map (fun x => x.divIncome)).getD 0) * 1.38) / pGrossTotal) * pTax
    else 0
  let pNetInvCash := ((b.pBase.map (fun x => x.interestIncome)).getD 0
    + (b.pBase.map (fun x => x.divIncome)).getD 0) - pInvTax
  let sNetEmp := calcNet ((b.sBase.map (fun x => x.employmentIncome)).getD 0) sGrossTotal sTax
  let sNetCPP := calcNet ((b.sBase.map (fun x => x.cppIncome)).getD 0) sGrossTotal sTax
  let sNetOAS := calcNet ((b.sBase.map (fun x => x.oasIncome)).getD 0) sGrossTotal sTax
  let sNetRRSP := calcNet ((sFinal.map (fun f => f.totalRRSP)).getD 0) sGrossTotal sTax
  let sInvTax :=
    if sGrossTotal > 0 then
      (((b.sBase.map (fun x => x.interestIncome)).getD 0
        + ((b.sBase.map (fun x => x.divIncome)).getD 0) * 1.38) / sGrossTotal) * sTax
    else 0
  let sNetInvCash := ((b.sBase.map (fun x => x.interestIncome)).getD 0
    + (b.sBase.map (fun x => x.divIncome)).getD 0) - sInvTax
  { year := 2025 + (yearOffset : ℚ)
    age := env.pAge
    spouseAge := env.sAge
    totalAssets :=
      (if env.pAlive then p3.rrsp.balance + p3.tfsa.balance + p3.nonRegistered.balance else 0)
      + (match s3 with
         | some sp =>
           if env.sAlive then sp.rrsp.balance + sp.tfsa.balance + sp.nonRegistered.balance else 0
         | none => 0)
    grossIncome := pGrossTotal + sGrossTotal
    cppIncome := ((b.pBase.map (fun x => x.cppIncome)).getD 0)
      + ((b.sBase.map (fun x => x.cppIncome)).getD 0)
    oasIncome := ((b.pBase.map (fun x => x.oasIncome)).getD 0)
      + ((b.sBase.map (fun x => x.oasIncome)).getD 0)
    netIncome := (pGrossTotal + sGrossTotal) - totalTaxPaid
      + stw.pTFSAWithdrawal + stw.sTFSAWithdrawal
      + stw.pNonRegWithdrawal + stw.sNonRegWithdrawal
    spending := env.targetSpend
    taxPaid := totalTaxPaid
    accounts :=
      { rrsp := if env.pAlive then p3.rrsp.balance else 0
        tfsa := if env.pAlive then p3.tfsa.balance else 0
        nonRegistered := if env.pAlive then p3.nonRegistered.balance else 0
        nonRegisteredACB := if env.pAlive then p3.nonRegistered.adjustedCostBase else 0 }
    spouseAccounts :=
      match s3 with
      | some sp =>
        if env.sAlive then
          some { rrsp := sp.rrsp.balance, tfsa := sp.tfsa.balance
                 nonRegistered := sp.nonRegistered.balance
                 spouseNonRegisteredACB := sp.nonRegistered.adjustedCostBase }
        else none
      | none => none
    netEmploymentIncome := pNetEmp + sNetEmp
    netCPPIncome := pNetCPP + sNetCPP
    netOASIncome := pNetOAS + sNetOAS
    netInvestmentIncome := pNetInvCash + sNetInvCash
    reinvestedTFSA := so.reinvestedTFSA
    reinvestedRRSP := so.reinvestedRRSP
    reinvestedNonReg := so.reinvestedNonReg
    personNetRRSP := pNetRRSP
    spouseNetRRSP := sNetRRSP
    personNetTFSA := stw.pTFSAWithdrawal
    spouseNetTFSA := stw.sTFSAWithdrawal
    personNetNonReg := stw.pNonRegWithdrawal
    spouseNetNonReg := stw.sNonRegWithdrawal
    totalTFSAWithdrawal := stw.pTFSAWithdrawal + stw.sTFSAWithdrawal
    totalNonRegWithdrawal := stw.pNonRegWithdrawal + stw.sNonRegWithdrawal
    totalRRSPWithdrawal := ((pFinal.map (fun f => f.totalRRSP)).getD 0)
      + ((sFinal.map (fun f => f.totalRRSP)).getD 0)
    netRRSPWithdrawal := pNetRRSP + sNetRRSP
    netTFSAWithdrawal := stw.pTFSAWithdrawal + stw.sTFSAWithdrawal
    netNonRegWithdrawal := stw.pNonRegWithdrawal + stw.sNonRegWithdrawal
    employmentIncome := ((b.pBase.map (fun x => x.employmentIncome)).getD 0)
      + ((b.sBase.map (fun x => x.employmentIncome)).getD 0)
    investmentIncome := ((b.pBase.map (fun x => x.interestIncome)).getD 0)
      + ((b.pBase.map (fun x => x.divIncome)).getD 0)
      + ((b.sBase.map (fun x => x.interestIncome)).getD 0)
      + ((b.sBase.map (fun x => x.divIncome)).getD 0)
    totalRealizedCapGains := stw.pRealizedGains + stw.sRealizedGains
    inflationFactor := env.inflationFactor
    householdSurplus := surplus }

/-- One iteration of the `runSimulation` year loop (Steps 1–6 and the result
record), composing the step functions above.  Persons are threaded explicitly
in place of the source's in-place mutation; `p.age` (resp. `s.age`) is the
cloned, never-mutated start age, exactly as in the source. -/
def simYear (inputs : SimulationInputs) (stochastic : Bool) (z : ℕ → ℚ)
    (yearOffset : ℕ) (p : Person) (s : Option Person) :
    Person × Option Person × SimulationResult :=
  let env := yearEnv inputs stochastic z yearOffset p s
  let b := baseStep inputs.province env p s
  let householdBaseNet := ((b.pBase.map (fun x => x.baseNetCash)).getD 0)
    + ((b.sBase.map (fun x => x.baseNetCash)).getD 0)
  let surplus := if householdBaseNet ≥ env.targetSpend then householdBaseNet - env.targetSpend else 0
  let deficit := if householdBaseNet ≥ env.targetSpend then 0 else env.targetSpend - householdBaseNet
  let stw := deficitStep inputs env b deficit
  let so := surplusStep env stw surplus
  let pFinal :=
    match b.pBase with
    | some x =>
      if env.pAlive then
        some (getFinalStats x stw.pExtraRRSPGross stw.pRealizedGains env.pAge inputs.province
          env.inflationFactor)
      else none
    | none => none
  let sFinal :=
    match b.sBase, env.sAge with
    | some x, some sa =>
      if env.sAlive then
        some (getFinalStats x stw.sExtraRRSPGross stw.sRealizedGains sa inputs.province
          env.inflationFactor)
      else none
    | _, _ => none
  let p3 := if env.pAlive then applyGrowth env.rates so.p else so.p
  let s3 := growSpouse env.sAlive env.rates so.s
  (p3, s3, buildRecord yearOffset env b stw so pFinal sFinal p3 s3 surplus)

/-- The per-iteration aliveness test of the `runSimulation` year loop (the
same computation `yearEnv` performs for `pAlive`/`sAlive`). -/
def loopAlive (yearOffset : ℕ) (p : Person) (s : Option Person) : Bool × Bool :=
  let pAge := p.age + (yearOffset : ℚ)
  let sAge : Option ℚ := s.map (fun sp => sp.age + (yearOffset : ℚ))
  (decide (pAge ≤ p.lifeExpectancy),
    match s, sAge with
    | some sp, some sa => !(decide (sa = 0)) && decide (sa ≤ sp.lifeExpectancy)
    | _, _ => false)

/-- The year loop of `runSimulation`: `fuel` counts the remaining iterations
(`yearOffset = 0 … endAge − startAge` in the source); the loop `break`s as soon
as neither person is alive. -/
def simLoop (inputs : SimulationInputs) (stochastic : Bool) (z : ℕ → ℚ) :
    ℕ → ℕ → Person → Option Person → List SimulationResult
  | 0, _, _, _ => []
  | fuel + 1, yearOffset, p, s =>
      if !(loopAlive yearOffset p s).1 && !(loopAlive yearOffset p s).2 then []
      else
        let step := simYear inputs stochastic z yearOffset p s
        step.2.2 :: simLoop inputs stochastic z fuel (yearOffset + 1) step.1 step.2.1

/-- `runSimulation` from `projection.ts`.  The `isNaN` guards of the source
have no counterpart over exact rationals (every `ℚ` is a number); all other
guards are embedded verbatim.  `z` supplies the Box–Muller draws consumed in
stochastic mode (one per simulated year). -/
def runSimulation (inputs : SimulationInputs) (stochastic : Bool) (z : ℕ → ℚ) :
    List SimulationResult :=
  let person := inputs.person
  if person.age ≥ person.lifeExpectancy then []
  else if person.age < 0 ∨ person.lifeExpectancy < 0 then []
  else if person.retirementAge > person.lifeExpectancy then []
  else
    let spouseBad : Bool :=
      match inputs.spouse with
      | some sp => decide (sp.age ≥ sp.lifeExpectancy) || decide (sp.age < 0)
          || decide (sp.lifeExpectancy < 0) || decide (sp.retirementAge > sp.lifeExpectancy)
      | none => false
    if spouseBad then []
    else
      let startAge := person.age
      let endAge := max person.lifeExpectancy
        (match inputs.spouse with
         | some sp => sp.lifeExpectancy + (sp.age - person.age)
         | none => 0)
      if endAge - startAge > 120 then []
      else simLoop inputs stochastic z (⌊endAge - startAge⌋.toNat + 1) 0 person inputs.spouse

/-- One per-year percentile band of the Monte Carlo aggregation. -/
structure MonteCarloPercentile where
  year : ℚ
  age : ℚ
  p5 : ℚ
  p25 : ℚ
  p50 : ℚ
  p75 : ℚ
  p95 : ℚ

/-- The aggregate Monte Carlo output. -/
structure MonteCarloResult where
  percentiles : List MonteCarloPercentile
  successRate : ℚ
  medianEndOfPlanAssets : ℚ

/-- `runMonteCarlo` from `projection.ts`.  `zs i` is the draw stream consumed
by the `i`-th stochastic run.  A JavaScript property access on `undefined`
(e.g. `rawRuns[0].length` with zero iterations, or
`run[run.length - 1].totalAssets` on an empty run) throws a `TypeError`; such
accesses are embedded as `Option` failure, so `none` models a thrown
exception. -/
def runMonteCarlo (inputs : SimulationInputs) (zs : ℕ → ℕ → ℚ) (iterations : ℕ) :
    Option MonteCarloResult := do
  let rawRuns := (List.range iterations).map (fun i => runSimulation inputs true (zs i))
  let r0 ← rawRuns.head?
  let years := r0.length
  let percentiles ← (List.range years).mapM (fun i => do
    let assetsAtYear ← rawRuns.mapM (fun run => (run.get? i).map (fun rec => rec.totalAssets))
    let refRun ← r0.get? i
    let sorted := assetsAtYear.mergeSort (fun a b => decide (a ≤ b))
    let q5 ← sorted.get? (⌊(0.05 : ℚ) * (iterations : ℚ)⌋).toNat
    let q25 ← sorted.get? (⌊(0.25 : ℚ) * (iterations : ℚ)⌋).toNat
    let q50 ← sorted.get? (⌊(0.50 : ℚ) * (iterations : ℚ)⌋).toNat
    let q75 ← sorted.get? (⌊(0.75 : ℚ) * (iterations : ℚ)⌋).toNat
    let q95 ← sorted.get? (⌊(0.95 : ℚ) * (iterations : ℚ)⌋).toNat
    pure (⟨refRun.year, refRun.age, q5, q25, q50, q75, q95⟩ : MonteCarloPercentile))
  let lastYearAssets ← rawRuns.mapM (fun run => run.getLast?.map (fun rec => rec.totalAssets))
  let successes := (lastYearAssets.filter (fun v => decide (v > 1000))).length
  let lastBand ← percentiles.getLast?
  pure { percentiles := percentiles
         successRate := (successes : ℚ) / (iterations : ℚ) * 100
         medianEndOfPlanAssets := lastBand.p50 }

/-! ### Concrete fixtures used by witnesses and counterexamples -/

/-- An all-capital asset mix. -/
def mixAllCapital : AssetMix := { interest := 0, dividend := 0, capitalGain := 1 }

/-- A minimal person: retired parameters, benefits starting at 70, no melt,
an all-capital open account whose ACB equals its balance. -/
def mkPerson (age ret le rrspBal tfsaBal nonRegBal : ℚ) : Person :=
  { age := age, retirementAge := ret, lifeExpectancy := le, currentIncome := 0
    cppStartAge := 70, cppContributedYears := 40, oasStartAge := 70
    rrspMeltStartAge := none, rrspMeltAmount := none
    rrsp := { balance := rrspBal }, tfsa := { balance := tfsaBal }
    nonRegistered := { balance := nonRegBal, adjustedCostBase := nonRegBal
                       assetMix := mixAllCapital } }

/-- Zero deterministic return assumptions. -/
def flatRates : ReturnRates :=
  { interest := 0, dividend := 0, capitalGrowth := 0, volatility := none }

/-- Both spouses retired and alive, deferred balances 90,000 vs 10,000, no
other assets, a $10,000 post-retirement spend: the deficit waterfall reaches
the deferred step with both spouses holding positive balances. -/
def c2Inputs : SimulationInputs :=
  { person := mkPerson 60 55 61 90000 0 0
    spouse := some (mkPerson 60 55 61 10000 0 0)
    province := "ON", inflationRate := 0
    preRetirementSpend := 0, postRetirementSpend := 10000
    oneTimeExpenses := none, withdrawalStrategy := none, returnRates := flatRates }

/-- Zero per-year base summary for the C2 step-level witness. -/
def c2base : PersonAnnualBase :=
  { taxableIncome := 0, tax := 0, cppIncome := 0, oasIncome := 0, rrifWithdrawal := 0
    voluntaryRRSPWithdrawal := 0, interestIncome := 0, divIncome := 0
    employmentIncome := 0, investmentIncomeNet := 0, baseNetCash := 0 }

/-- Spouse fixture for the C2 step-level witness. -/
def c2spouse : Person := mkPerson 60 55 61 5000 10 400

/-- Context with both spouses alive for the C2 step-level witness. -/
def c2ctx : DeficitCtx :=
  { pAlive := true, sAlive := true, pBase := some c2base, sBase := some c2base
    province := "ON", inflationFactor := 1 }

/-- Deficit state with both spouses holding positive balances in every
account, for the C2 step-level witness. -/
def c2st : DeficitState :=
  { p := mkPerson 60 55 61 5000 30 600, s := some c2spouse
    remainingDeficit := 500
    pExtraRRSPGross := 0, sExtraRRSPGross := 0
    pTFSAWithdrawal := 0, sTFSAWithdrawal := 0
    pNonRegWithdrawal := 0, sNonRegWithdrawal := 0
    pRealizedGains := 0, sRealizedGains := 0 }

/-- A valid person but a spouse whose lifespan (140 − 10 = 130 years) exceeds
the 120-year iteration cap; the horizon `endAge − startAge` computed by the
code is only 50 years, so no guard fires. -/
def c3Inputs : SimulationInputs :=
  { person := mkPerson 50 55 60 0 0 0
    spouse := some (mkPerson 10 65 140 0 0 0)
    province := "ON", inflationRate := 0
    preRetirementSpend := 0, postRetirementSpend := 0
    oneTimeExpenses := none, withdrawalStrategy := none, returnRates := flatRates }

/-- Inputs rejected by the age guards (`age ≥ lifeExpectancy`). -/
def c4Inputs : SimulationInputs :=
  { person := mkPerson 70 60 65 0 0 0
    spouse := none
    province := "ON", inflationRate := 0
    preRetirementSpend := 0, postRetirementSpend := 0
    oneTimeExpenses := none, withdrawalStrategy := none, returnRates := flatRates }

/-- A single person with a deferred balance of 100 and a capital-growth rate
of −200%: end-of-year growth multiplies the balance by −1. -/
def c9Inputs : SimulationInputs :=
  { person := mkPerson 50 50 51 100 0 0
    spouse := none
    province := "ON", inflationRate := 0
    preRetirementSpend := 0, postRetirementSpend := 0
    oneTimeExpenses := none, withdrawalStrategy := none
    returnRates := { interest := 0, dividend := 0, capitalGrowth := -2, volatility := none } }

/-- A benign single-person two-year scenario (all balances and spends zero). -/
def c10Inputs : SimulationInputs :=
  { person := mkPerson 50 50 51 0 0 0
    spouse := none
    province := "ON", inflationRate := 0
    preRetirementSpend := 0, postRetirementSpend := 0
    oneTimeExpenses := none, withdrawalStrategy := none, returnRates := flatRates }

/-- A default result record (used only to deconstruct `Option` results in
closed witness statements). -/
def defaultSimResult : SimulationResult :=
  { year := 0, age := 0, spouseAge := none, totalAssets := 0, grossIncome := 0
    cppIncome := 0, oasIncome := 0, netIncome := 0, spending := 0, taxPaid := 0
    accounts := { rrsp := 0, tfsa := 0, nonRegistered := 0, nonRegisteredACB := 0 }
    spouseAccounts := none
    netEmploymentIncome := 0, netCPPIncome := 0, netOASIncome := 0
    netInvestmentIncome := 0, reinvestedTFSA := 0, reinvestedRRSP := 0
    reinvestedNonReg := 0, personNetRRSP := 0, spouseNetRRSP := 0
    personNetTFSA := 0, spouseNetTFSA := 0, personNetNonReg := 0
    spouseNetNonReg := 0, totalTFSAWithdrawal := 0, totalNonRegWithdrawal := 0
    totalRRSPWithdrawal := 0, netRRSPWithdrawal := 0, netTFSAWithdrawal := 0
    netNonRegWithdrawal := 0, employmentIncome := 0, investmentIncome := 0
    totalRealizedCapGains := 0, inflationFactor := 1, householdSurplus := 0 }

/-- Three-point secant characterization of convexity over `ℚ` (for `a ≤ b ≤ c`
the middle value lies below the chord, cross-multiplied to avoid division). -/
def SecantConvex (g : ℚ → ℚ) : Prop :=
  ∀ a b c : ℚ, a ≤ b → b ≤ c → (c - a) * g b ≤ (c - b) * g a + (b - a) * g c

/-- Hinge decomposition of a tiered schedule: each bracket contributes its
rate increment over the previous rate times `max 0 (x − indexed threshold)`. -/
def hingeSum (x f : ℚ) : ℚ → List TaxBracket → ℚ
  | _, [] => 0
  | prevRate, b :: rest =>
      (b.rate - prevRate) * max 0 (x - b.threshold * f) + hingeSum x f b.rate rest

/-- All three account balances of a person are nonnegative (the C9
invariant). -/
def PersonNonneg (p : Person) : Prop :=
  0 ≤ p.rrsp.balance ∧ 0 ≤ p.tfsa.balance ∧ 0 ≤ p.nonRegistered.balance

/-- `PersonNonneg` together with a pinned open-account asset mix (the mix is
never rewritten by the simulation, which lets per-year growth hypotheses be
stated once about the initial mix). -/
def PersonInv (mix0 : AssetMix) (p : Person) : Prop :=
  PersonNonneg p ∧ p.nonRegistered.assetMix = mix0

/-- The C9 invariant over a deficit-waterfall state, with pinned mixes. -/
def StateInv (mixP mixS : AssetMix) (st : DeficitState) : Prop :=
  PersonInv mixP st.p ∧ ∀ sp, st.s = some sp → PersonInv mixS sp

/-- The C9 invariant over a deficit-waterfall state (balances only). -/
def StateNonneg (st : DeficitState) : Prop :=
  PersonNonneg st.p ∧ ∀ sp, st.s = some sp → PersonNonneg sp

/-! ### C6 — OAS clawback shape -/

/-- C6: `calculateOASClawback` returns 0 at or below the indexed threshold;
above it, it is 15% of the excess while that is at most `maxClawback`, and is
capped at `maxClawback` once 15% of the excess reaches it. -/
theorem c6_clawback_shape (netIncome maxClawback inflationFactor threshold : ℚ) :
    (netIncome ≤ threshold * inflationFactor →
      calculateOASClawback netIncome maxClawback inflationFactor threshold = 0)
    ∧ (threshold * inflationFactor < netIncome →
        (netIncome - threshold * inflationFactor) * 0.15 ≤ maxClawback →
        calculateOASClawback netIncome maxClawback inflationFactor threshold
          = (netIncome - threshold * inflationFactor) * 0.15)
    ∧ (threshold * inflationFactor < netIncome →
        maxClawback ≤ (netIncome - threshold * inflationFactor) * 0.15 →
        calculateOASClawback netIncome maxClawback inflationFactor threshold
          = maxClawback) := by
  refine ⟨fun h => ?_, fun h hle => ?_, fun h hge => ?_⟩
  · simp only [calculateOASClawback, if_pos h]
  · simp only [calculateOASClawback, if_neg (not_le.mpr h)]
    exact min_eq_left hle
  · simp only [calculateOASClawback, if_neg (not_le.mpr h)]
    exact min_eq_right hge

/-- Concrete instantiation of `c6_clawback_shape`: at net income 100,000 with
the default 2025 threshold the clawback equals 15% of the 6,546 excess. -/
theorem c6_clawback_shape_witness :
    (93454 : ℚ) * 1 < 100000
    ∧ calculateOASClawback 100000 5000 1 93454 = (100000 - 93454 * 1) * 0.15 :=
  ⟨by norm_num,
   (c6_clawback_shape 100000 5000 1 93454).2.1 (by norm_num) (by norm_num)⟩

/-! ### C4 — runMonteCarlo on rejected inputs -/

/-- C4 (refuted at this input): `runSimulation` rejects `c4Inputs` with an
empty sequence, and `runMonteCarlo` on those same inputs dereferences the last
element of an empty run (`run[run.length - 1].totalAssets`), i.e. throws a
`TypeError` (modelled as `none`) instead of returning a `MonteCarloResult`. -/
theorem c4_montecarlo_throws_on_rejected_inputs :
    (runSimulation c4Inputs true (fun _ => 0)).isEmpty = true
    ∧ (runMonteCarlo c4Inputs (fun _ _ => 0) 200).isNone = true := by
  constructor
  · decide
  · decide

/-! ### C3 — invalid age configurations -/

/-- C3 amended: a negative age or life expectancy, a retirement age past the
death age (for either person), or a simulation horizon
`endAge − startAge` exceeding the 120-year cap, makes `runSimulation` return
the empty sequence.  (A spouse lifespan over 120 years does not by itself
empty the result — see the counterexample.) -/
theorem c3_invalid_ages_empty (inputs : SimulationInputs) (stochastic : Bool) (z : ℕ → ℚ)
    (h : inputs.person.age < 0 ∨ inputs.person.lifeExpectancy < 0
      ∨ inputs.person.retirementAge > inputs.person.lifeExpectancy
      ∨ (∃ sp, inputs.spouse = some sp
          ∧ (sp.age < 0 ∨ sp.lifeExpectancy < 0 ∨ sp.retirementAge > sp.lifeExpectancy))
      ∨ max inputs.person.lifeExpectancy
          (match inputs.spouse with
           | some sp => sp.lifeExpectancy + (sp.age - inputs.person.age)
           | none => 0) - inputs.person.age > 120) :
    runSimulation inputs stochastic z = [] := by
  unfold runSimulation
  dsimp only
  split_ifs with h1 h2 h3 h4 h5
  · rfl
  · rfl
  · rfl
  · rfl
  · rfl
  · exfalso
    rcases h with ha | hb | hc | ⟨sp, hsp, hd⟩ | he
    · exact h2 (Or.inl ha)
    · exact h2 (Or.inr hb)
    · exact h3 hc
    · rw [hsp] at h4
      simp only [Bool.or_eq_true, decide_eq_true_eq, not_or] at h4
      rcases hd with d1 | d2 | d3
      · exact h4.1.1.2 d1
      · exact h4.1.2 d2
      · exact h4.2 d3
    · exact h5 he

/-- Concrete instantiation of `c3_invalid_ages_empty` at a person whose age is
negative. -/
theorem c3_invalid_ages_empty_witness :
    runSimulation
      { person := mkPerson (-1) 55 60 0 0 0, spouse := none, province := "ON"
        inflationRate := 0, preRetirementSpend := 0, postRetirementSpend := 0
        oneTimeExpenses := none, withdrawalStrategy := none, returnRates := flatRates }
      false (fun _ => 0) = [] :=
  c3_invalid_ages_empty _ false (fun _ => 0) (Or.inl (by norm_num [mkPerson]))

/-- C3 counterexample: `c3Inputs` has a spouse whose lifespan
(140 − 10 = 130 years) exceeds the 120-year iteration cap — an invalid age
configuration per the claim — yet `runSimulation` returns a non-empty result
sequence, because the guard tests only the horizon
`max(p.le, s.le + (s.age − p.age)) − p.age = 50`. -/
theorem c3_spouse_lifespan_counterexample :
    ((c3Inputs.spouse.map (fun sp => sp.lifeExpectancy - sp.age)).getD 0 > 120)
    ∧ (runSimulation c3Inputs false (fun _ => 0)).isEmpty = false := by
  constructor
  · decide
  · decide

/-! ### C1 — gross-up solver round trip -/

/-- The instrumented solver loop computes the same result as the source loop. -/
theorem solveGrossLoopC_fst (targetNet currentTaxable baseOAS : ℚ) (province : String)
    (inflationFactor age : ℚ) : ∀ (fuel : ℕ) (low high : ℚ),
    (solveGrossLoopC targetNet currentTaxable baseOAS province inflationFactor age fuel low high).1
      = solveGrossLoop targetNet currentTaxable baseOAS province inflationFactor age fuel low high
  | 0, _, _ => rfl
  | fuel + 1, low, high => by
      simp only [solveGrossLoopC, solveGrossLoop]
      split_ifs
      · rfl
      · exact solveGrossLoopC_fst targetNet currentTaxable baseOAS province inflationFactor age fuel _ _
      · exact solveGrossLoopC_fst targetNet currentTaxable baseOAS province inflationFactor age fuel _ _

/-- In every branch of the loop, the returned `tax` is exactly the marginal
tax-plus-clawback attributed to the returned `gross`. -/
theorem solveGrossLoop_tax_eq (targetNet currentTaxable baseOAS : ℚ) (province : String)
    (inflationFactor age : ℚ) : ∀ (fuel : ℕ) (low high : ℚ),
    (solveGrossLoop targetNet currentTaxable baseOAS province inflationFactor age fuel low high).tax
      = marginalTaxOn currentTaxable baseOAS province inflationFactor age
          (solveGrossLoop targetNet currentTaxable baseOAS province inflationFactor age fuel low high).gross
  | 0, _, _ => rfl
  | fuel + 1, low, high => by
      simp only [solveGrossLoop]
      split_ifs
      · rfl
      · exact solveGrossLoop_tax_eq targetNet currentTaxable baseOAS province inflationFactor age fuel _ _
      · exact solveGrossLoop_tax_eq targetNet currentTaxable baseOAS province inflationFactor age fuel _ _

/-- If the instrumented loop reports in-loop convergence, the returned pair
satisfies the $1 round-trip tolerance. -/
theorem solveGrossLoopC_tol (targetNet currentTaxable baseOAS : ℚ) (province : String)
    (inflationFactor age : ℚ) : ∀ (fuel : ℕ) (low high : ℚ),
    (solveGrossLoopC targetNet currentTaxable baseOAS province inflationFactor age fuel low high).2 = true →
    |(solveGrossLoopC targetNet currentTaxable baseOAS province inflationFactor age fuel low high).1.gross
      - (solveGrossLoopC targetNet currentTaxable baseOAS province inflationFactor age fuel low high).1.tax
      - targetNet| < 1
  | 0, _, _ => by
      intro h
      simp only [solveGrossLoopC] at h
      exact absurd h (by simp)
  | fuel + 1, low, high => by
      intro h
      simp only [solveGrossLoopC] at h ⊢
      split_ifs at h ⊢ with h1 h2
      · simpa [sub_sub] using h1
      · exact solveGrossLoopC_tol targetNet currentTaxable baseOAS province inflationFactor age fuel _ _ h
      · exact solveGrossLoopC_tol targetNet currentTaxable baseOAS province inflationFactor age fuel _ _ h

/-- C1 amended: the pair returned by `solveGrossWithdrawal` always carries the
exact marginal tax-plus-clawback of its own gross, and whenever the bisection
meets its in-loop $1 tolerance (the instrumented flag), the round trip
`gross − marginalTax` reproduces `targetNet` to within $1.  (For targets whose
required gross exceeds the capped bracket the loop can exhaust its 20
iterations and return a best-effort estimate — see the counterexample.) -/
theorem c1_solver_roundtrip (targetNet currentTaxable baseOAS : ℚ) (province : String)
    (inflationFactor age : ℚ) :
    (solveGrossWithdrawalC targetNet currentTaxable baseOAS province inflationFactor age).1
      = solveGrossWithdrawal targetNet currentTaxable baseOAS province inflationFactor age
    ∧ (solveGrossWithdrawal targetNet currentTaxable baseOAS province inflationFactor age).tax
      = marginalTaxOn currentTaxable baseOAS province inflationFactor age
          (solveGrossWithdrawal targetNet currentTaxable baseOAS province inflationFactor age).gross
    ∧ ((solveGrossWithdrawalC targetNet currentTaxable baseOAS province inflationFactor age).2 = true →
        |(solveGrossWithdrawal targetNet currentTaxable baseOAS province inflationFactor age).gross
          - (solveGrossWithdrawal targetNet currentTaxable baseOAS province inflationFactor age).tax
          - targetNet| < 1) := by
  unfold solveGrossWithdrawal solveGrossWithdrawalC
  split_ifs with h
  · refine ⟨rfl, ?_, by simp⟩
    show (0 : ℚ) = marginalTaxOn currentTaxable baseOAS province inflationFactor age 0
    simp [marginalTaxOn]
  · refine ⟨solveGrossLoopC_fst _ _ _ _ _ _ _ _ _, solveGrossLoop_tax_eq _ _ _ _ _ _ _ _ _, ?_⟩
    intro hc
    have := solveGrossLoopC_tol targetNet currentTaxable baseOAS province inflationFactor age 20
      targetNet (if targetNet * 3 > 10000000 then 10000000 else targetNet * 3) hc
    rwa [solveGrossLoopC_fst] at this

/-- Concrete instantiation of `c1_solver_roundtrip`: at a $10,000 net target
on a zero tax base the solver converges and the round trip is within $1. -/
theorem c1_solver_roundtrip_witness :
    (solveGrossWithdrawalC 10000 0 0 "ON" 1 0).2 = true
    ∧ |(solveGrossWithdrawal 10000 0 0 "ON" 1 0).gross
        - (solveGrossWithdrawal 10000 0 0 "ON" 1 0).tax - 10000| < 1 :=
  ⟨by decide, (c1_solver_roundtrip 10000 0 0 "ON" 1 0).2.2 (by decide)⟩

/-- C1 counterexample: at the positive target `targetNet = 20,000,000` (zero
current taxable income, OAS base and age, inflation factor 1) the bracket is
capped at 10,000,000 below the required gross, the bisection exhausts its 20
iterations, and `gross` minus the marginal tax on that gross misses the target
by millions — not within $1. -/
theorem c1_roundtrip_counterexample :
    ¬ |(solveGrossWithdrawal 20000000 0 0 "ON" 1 0).gross
        - marginalTaxOn 0 0 "ON" 1 0 (solveGrossWithdrawal 20000000 0 0 "ON" 1 0).gross
        - 20000000| < 1 := by decide

/-! ### Counterexamples for C2, C5, C7, C8, C9 -/

/-- C2 counterexample: on `c2Inputs` the deferred step is reached with both
spouses alive holding 90,000 and 10,000; after the year the recorded balances
show equal draws (the 50/50 net split), not draws pro-rata to the 9:1 balance
share — the cross-multiplied pro-rata identity
`drawnP * 10000 = drawnS * 90000` evaluates to `false`. -/
theorem c2_rrsp_split_counterexample :
    ((runSimulation c2Inputs false (fun _ => 0)).get? 0).map
        (fun r => decide ((90000 - r.accounts.rrsp) * 10000
          = (10000 - ((r.spouseAccounts.map (fun a => a.rrsp)).getD 0)) * 90000))
      = some false := by decide

/-- C5 counterexample: for Ontario (inflation factor 1, default age, pension
and dividends) the three incomes 19,999 / 20,001 / 20,003 straddle the $300
Ontario Health Premium jump at 20,000, violating the three-point convexity
inequality `(c−a)·tax(b) ≤ (c−b)·tax(a) + (b−a)·tax(c)`. -/
theorem c5_convexity_counterexample :
    ¬ ((20003 - 19999 : ℚ) * calculateIncomeTax 20001 "ON" 1 0 0 0
        ≤ (20003 - 20001) * calculateIncomeTax 19999 "ON" 1 0 0 0
          + (20001 - 19999) * calculateIncomeTax 20003 "ON" 1 0 0 0) := by decide

/-- C7 counterexample: Alberta levies no surtax and its basic personal amount
is 22,323, yet at income exactly the indexed BPA (inflation factor 1) the tax
is 817.485, not 0 — the federal credit (15% of 16,129) does not cover the
14.5% federal tax on 22,323. -/
theorem c7_bpa_counterexample :
    (22323 : ℚ) ≤ resolvedBPA "AB" * 1
    ∧ ¬ calculateIncomeTax 22323 "AB" 1 0 0 0 = 0 := by
  constructor
  · decide
  · decide

/-- C8 counterexample: the unknown code "XX" resolves to Ontario's brackets
and personal amount but — unlike the literal province `'ON'` — skips the
Ontario Health Premium and surtax, so at income 50,000 the two results differ
(by the $600 OHP). -/
theorem c8_fallback_counterexample :
    provincialBrackets "XX" = none
    ∧ ¬ calculateIncomeTax 50000 "XX" 1 0 0 0 = calculateIncomeTax 50000 "ON" 1 0 0 0 := by
  constructor
  · decide
  · decide

/-- C9 counterexample: on `c9Inputs` (deferred balance 100, capital-growth
rate −200%) the first emitted record already carries a negative deferred
balance after end-of-year growth. -/
theorem c9_balance_counterexample :
    ((runSimulation c9Inputs false (fun _ => 0)).get? 0).map
        (fun r => decide (0 ≤ r.accounts.rrsp)) = some false := by decide

/-! ### Tiered-tax helper lemmas -/

/-- Income at or below every (indexed) threshold of a bracket list incurs no
tiered tax. -/
theorem calculateTieredTax_eq_zero (x f : ℚ) :
    ∀ (bs : List TaxBracket), (∀ b ∈ bs, x ≤ b.threshold * f) →
      calculateTieredTax x bs f = 0
  | [], _ => rfl
  | [b], h => by
      simp only [calculateTieredTax]
      rw [if_neg (not_lt.mpr (h b (by simp)))]
  | b :: b2 :: rest, h => by
      simp only [calculateTieredTax]
      rw [if_neg (not_lt.mpr (h b (by simp))),
        calculateTieredTax_eq_zero x f (b2 :: rest) (fun c hc => h c (by simp [hc]))]
      ring

/-- With a zero first threshold and income at or below every later (indexed)
threshold, the tiered tax is the first rate times the income (when positive). -/
theorem calculateTieredTax_first (r : ℚ) (bs : List TaxBracket) (x f : ℚ)
    (h : ∀ b ∈ bs, x ≤ b.threshold * f) :
    calculateTieredTax x (⟨0, r⟩ :: bs) f = if 0 < x then x * r else 0 := by
  cases bs with
  | nil =>
      simp only [calculateTieredTax, zero_mul]
      by_cases hx : 0 < x
      · rw [if_pos hx, if_pos hx, sub_zero]
      · rw [if_neg hx, if_neg hx]
  | cons b2 rest =>
      simp only [calculateTieredTax, zero_mul]
      rw [calculateTieredTax_eq_zero x f (b2 :: rest) h]
      have hx2 : x ≤ b2.threshold * f := h b2 (by simp)
      by_cases hx : 0 < x
      · rw [if_pos hx, if_pos hx, min_eq_left hx2, sub_zero, add_zero]
      · rw [if_neg hx, if_neg hx, add_zero]

/-! ### C7 — zero tax up to the indexed basic personal amount -/

/-- Shared core for the amended C7: for a non-Ontario jurisdiction whose
resolved bracket list starts at threshold 0 with rate `r1`, whose resolved
basic personal amount `bpa` is below the first federal and all provincial
upper thresholds, and whose federal tax at the BPA is covered by the federal
credit (`bpa * 0.145 ≤ federalBPA * 0.15`), tax on any income up to the
indexed BPA is zero. -/
theorem c7_zero_core (province : String) (f income r1 bpa : ℚ) (tailP : List TaxBracket)
    (hON : ¬province = "ON")
    (hbr : resolvedBrackets province = ⟨0, r1⟩ :: tailP)
    (hbpa : resolvedBPA province = bpa)
    (hr1 : 0 ≤ r1) (hbpapos : 0 ≤ bpa)
    (hcover : bpa * 0.145 ≤ federalBPA * 0.15)
    (hfed575 : bpa ≤ 57375)
    (htail : ∀ b ∈ tailP, bpa ≤ b.threshold)
    (hf : 0 ≤ f) (hinc : income ≤ bpa * f) :
    calculateIncomeTax income province f 0 0 0 = 0 := by
  have hup : ∀ (t : ℚ), bpa ≤ t → income ≤ t * f := fun t ht =>
    le_trans hinc (mul_le_mul_of_nonneg_right ht hf)
  have hfedlist : federalBrackets
      = ⟨0, 0.145⟩ :: [⟨57375, 0.205⟩, ⟨114750, 0.26⟩, ⟨177882, 0.29⟩, ⟨253414, 0.33⟩] := rfl
  have hfedtail : ∀ b ∈ [(⟨57375, 0.205⟩ : TaxBracket), ⟨114750, 0.26⟩,
      ⟨177882, 0.29⟩, ⟨253414, 0.33⟩], income ≤ b.threshold * f := by
    intro b hb
    refine hup b.threshold (le_trans hfed575 ?_)
    fin_cases hb <;> norm_num
  have hptail : ∀ b ∈ tailP, income ≤ b.threshold * f := fun b hb => hup _ (htail b hb)
  simp only [calculateIncomeTax, hbr, hbpa, firstBracketRate]
  rw [hfedlist, calculateTieredTax_first, calculateTieredTax_first]
  · rw [if_neg (by norm_num : ¬(0 : ℚ) > 0), if_neg (by norm_num : ¬(0 : ℚ) > 0),
      if_neg (by norm_num : ¬(0 : ℚ) ≥ 65), if_neg hON]
    have hfbpa : federalBPA = 16129 := rfl
    refine max_eq_left ?_
    by_cases hx : 0 < income
    · rw [if_pos hx, if_pos hx]
      have h1 : income * 0.145 ≤ bpa * f * 0.145 :=
        mul_le_mul_of_nonneg_right hinc (by norm_num)
      have h2 : bpa * f * 0.145 ≤ federalBPA * f * 0.15 := by
        have := mul_le_mul_of_nonneg_right hcover hf
        nlinarith
      have h3 : income * r1 ≤ bpa * f * r1 := mul_le_mul_of_nonneg_right hinc hr1
      nlinarith
    · rw [if_neg hx, if_neg hx]
      rw [hfbpa]
      nlinarith [mul_nonneg (mul_nonneg hbpapos hf) hr1]
  · exact hptail
  · exact hfedtail

/-- C7 amended: `computeTax` on income up to the indexed basic personal amount
is zero for the non-surtax jurisdictions whose BPA is covered by the federal
credit — BC, MB, NB, NL, NS, PE, YT, and any unresolved code (which falls back
to Ontario's tables without the Ontario surcharges).  It fails for AB, NT, NU,
QC and SK, whose BPA exceeds the coverage bound (see the counterexample). -/
theorem c7_bpa_zero_tax (province : String) (f income : ℚ)
    (hprov : province ∈ ["BC", "MB", "NB", "NL", "NS", "PE", "YT"]
      ∨ (provincialBrackets province = none ∧ basicPersonalAmount province = none
          ∧ ¬province = "ON"))
    (hf : 0 ≤ f) (hinc : income ≤ resolvedBPA province * f) :
    calculateIncomeTax income province f 0 0 0 = 0 := by
  rcases hprov with hmem | ⟨hb, hbpa, hON⟩
  · fin_cases hmem
    · exact c7_zero_core "BC" f income 0.0506 12932 _ (by decide) rfl rfl (by norm_num)
        (by norm_num) (by norm_num [federalBPA]) (by norm_num) (by decide) hf hinc
    · exact c7_zero_core "MB" f income 0.108 15780 _ (by decide) rfl rfl (by norm_num)
        (by norm_num) (by norm_num [federalBPA]) (by norm_num) (by decide) hf hinc
    · exact c7_zero_core "NB" f income 0.094 13396 _ (by decide) rfl rfl (by norm_num)
        (by norm_num) (by norm_num [federalBPA]) (by norm_num) (by decide) hf hinc
    · exact c7_zero_core "NL" f income 0.087 11067 _ (by decide) rfl rfl (by norm_num)
        (by norm_num) (by norm_num [federalBPA]) (by norm_num) (by decide) hf hinc
    · exact c7_zero_core "NS" f income 0.0879 11744 _ (by decide) rfl rfl (by norm_num)
        (by norm_num) (by norm_num [federalBPA]) (by norm_num) (by decide) hf hinc
    · exact c7_zero_core "PE" f income 0.095 14650 _ (by decide) rfl rfl (by norm_num)
        (by norm_num) (by norm_num [federalBPA]) (by norm_num) (by decide) hf hinc
    · exact c7_zero_core "YT" f income 0.064 16129 _ (by decide) rfl rfl (by norm_num)
        (by norm_num) (by norm_num [federalBPA]) (by norm_num) (by decide) hf hinc
  · refine c7_zero_core province f income 0.0505 12747 onBrackets.tail hON ?_ ?_
      (by norm_num) (by norm_num) (by norm_num [federalBPA]) (by norm_num) (by decide) hf ?_
    · rw [resolvedBrackets, hb]; rfl
    · rw [resolvedBPA, hbpa]; rfl
    · rwa [resolvedBPA, hbpa] at hinc

/-- Concrete instantiation of `c7_bpa_zero_tax`: BC income 10,000 at inflation
factor 1 is below the 12,932 BPA and is taxed at zero. -/
theorem c7_bpa_zero_tax_witness : calculateIncomeTax 10000 "BC" 1 0 0 0 = 0 :=
  c7_bpa_zero_tax "BC" 1 10000 (Or.inl (by decide)) (by norm_num) (by decide)

/-! ### C8 — unknown jurisdiction fallback -/

/-- The Ontario surtax vanishes whenever its basic-tax argument is at most the
first indexed tier threshold. -/
theorem calculateOntarioSurtax_eq_zero (x f : ℚ) (hf : 0 ≤ f) (hx : x ≤ 5710 * f) :
    calculateOntarioSurtax x f = 0 := by
  unfold calculateOntarioSurtax
  rw [if_neg (not_lt.mpr hx), if_neg (not_lt.mpr (le_trans hx (by nlinarith)))]
  split_ifs <;> ring

/-- C8 amended: an unresolved jurisdiction code uses Ontario's brackets, basic
personal amount and dividend-credit rate, but — unlike the literal code
`'ON'` — never adds the Ontario Health Premium or surtax.  The two results
therefore agree exactly on incomes where those surcharges vanish (in
particular any income at most `20000 * inflationFactor`), for every age,
pension and dividend argument; above, they can differ (see counterexample). -/
theorem c8_unknown_fallback (province : String) (income f age epi div : ℚ)
    (hb : provincialBrackets province = none)
    (hbpa : basicPersonalAmount province = none)
    (hdtc : provincialDTCRates province = none)
    (hf : 0 ≤ f) (hinc : income ≤ 20000 * f) :
    calculateIncomeTax income province f age epi div
      = calculateIncomeTax income "ON" f age epi div := by
  have hbr : resolvedBrackets province = resolvedBrackets "ON" := by
    rw [resolvedBrackets, resolvedBrackets, hb]; rfl
  have hbpa2 : resolvedBPA province = resolvedBPA "ON" := by
    rw [resolvedBPA, resolvedBPA, hbpa]; rfl
  have hdtc2 : resolvedDTCRate province = resolvedDTCRate "ON" := by
    rw [resolvedDTCRate, resolvedDTCRate, hdtc]; rfl
  have hne : ¬province = "ON" := by
    intro h
    rw [h] at hb
    exact (by decide : ¬provincialBrackets "ON" = none) hb
  have honb : resolvedBrackets "ON"
      = ⟨0, 0.0505⟩ :: [⟨52886, 0.0915⟩, ⟨105775, 0.1116⟩, ⟨150000, 0.1216⟩,
          ⟨220000, 0.1316⟩] := rfl
  have htail : ∀ b ∈ [(⟨52886, 0.0915⟩ : TaxBracket), ⟨105775, 0.1116⟩,
      ⟨150000, 0.1216⟩, ⟨220000, 0.1316⟩], income ≤ b.threshold * f := by
    intro b hb2
    refine le_trans hinc ?_
    have : (20000 : ℚ) ≤ b.threshold := by fin_cases hb2 <;> norm_num
    nlinarith
  have hprovtax : calculateTieredTax income (resolvedBrackets "ON") f
      = if 0 < income then income * 0.0505 else 0 := by
    rw [honb, calculateTieredTax_first _ _ _ _ htail]
  have hohp : calculateOHP income f = 0 := by
    unfold calculateOHP
    rw [if_pos hinc]
  have hsur : calculateOntarioSurtax
      (calculateTieredTax income (resolvedBrackets "ON") f
        - resolvedBPA "ON" * f * firstBracketRate (resolvedBrackets "ON")) f = 0 := by
    refine calculateOntarioSurtax_eq_zero _ f hf ?_
    rw [hprovtax]
    have hbpaval : resolvedBPA "ON" = 12747 := rfl
    have hrate : firstBracketRate (resolvedBrackets "ON") = 0.0505 := rfl
    rw [hbpaval, hrate]
    by_cases hx : 0 < income
    · rw [if_pos hx]
      nlinarith
    · rw [if_neg hx]
      nlinarith
  simp only [calculateIncomeTax, hbr, hbpa2, hdtc2, if_neg hne]
  rw [hohp, hsur]
  simp only [add_zero, if_true]

/-- Concrete instantiation of `c8_unknown_fallback` at the unknown code "ZZ"
with nontrivial age, pension and dividend arguments. -/
theorem c8_unknown_fallback_witness :
    calculateIncomeTax 15000 "ZZ" 1 70 1000 500
      = calculateIncomeTax 15000 "ON" 1 70 1000 500 :=
  c8_unknown_fallback "ZZ" 15000 1 70 1000 500 (by decide) (by decide) (by decide)
    (by norm_num) (by norm_num)

/-! ### C5 — monotonicity and convexity of the tax function -/

/-- `SecantConvex` is closed under pointwise addition. -/
theorem secantConvex_add {g h : ℚ → ℚ} (hg : SecantConvex g) (hh : SecantConvex h) :
    SecantConvex (fun x => g x + h x) := by
  intro a b c hab hbc
  dsimp only
  have h1 := hg a b c hab hbc
  have h2 := hh a b c hab hbc
  nlinarith [h1, h2]

/-- `SecantConvex` is closed under multiplication by a nonnegative constant. -/
theorem secantConvex_smul (k : ℚ) (hk : 0 ≤ k) {g : ℚ → ℚ} (hg : SecantConvex g) :
    SecantConvex (fun x => k * g x) := by
  intro a b c hab hbc
  dsimp only
  nlinarith [mul_le_mul_of_nonneg_left (hg a b c hab hbc) hk]

/-- The zero function is `SecantConvex`. -/
theorem secantConvex_zero : SecantConvex (fun _ => 0) := by
  intro a b c hab hbc
  simp

/-- The hinge `max 0 (x − s)` is `SecantConvex`. -/
theorem secantConvex_hinge (s : ℚ) : SecantConvex (fun x => max 0 (x - s)) := by
  intro a b c hab hbc
  dsimp only
  rcases le_or_lt b s with hb | hb
  · rw [max_eq_left (by linarith : b - s ≤ 0)]
    have h1 : (0 : ℚ) ≤ max 0 (a - s) := le_max_left _ _
    have h2 : (0 : ℚ) ≤ max 0 (c - s) := le_max_left _ _
    nlinarith
  · rw [max_eq_right (by linarith : (0 : ℚ) ≤ b - s)]
    have e1 : 0 ≤ (c - b) * (max 0 (a - s) - (a - s)) :=
      mul_nonneg (by linarith) (by linarith [le_max_right 0 (a - s)])
    have e2 : 0 ≤ (b - a) * (max 0 (c - s) - (c - s)) :=
      mul_nonneg (by linarith) (by linarith [le_max_right 0 (c - s)])
    nlinarith [e1, e2]

/-- A hinge sum over brackets with nondecreasing rates (starting at or above
the previous rate) is `SecantConvex`. -/
theorem hingeSum_secantConvex : ∀ (bs : List TaxBracket) (prevRate f : ℚ),
    List.Pairwise (fun b1 b2 => b1.rate ≤ b2.rate) bs →
    (∀ b ∈ bs.head?, prevRate ≤ b.rate) →
    SecantConvex (fun x => hingeSum x f prevRate bs)
  | [], prevRate, f, _, _ => by
      simpa [hingeSum] using secantConvex_zero
  | b :: rest, prevRate, f, hchain, hhead => by
      have h1 : prevRate ≤ b.rate := hhead b rfl
      have hrest : SecantConvex (fun x => hingeSum x f b.rate rest) :=
        hingeSum_secantConvex rest b.rate f (List.Pairwise.of_cons hchain)
          (by
            intro b0 hb0
            cases rest with
            | nil => simp at hb0
            | cons b3 rest2 =>
                simp only [List.head?, Option.mem_def, Option.some.injEq] at hb0
                subst hb0
                exact (List.pairwise_cons.mp hchain).1 b3 (by simp))
      have hhinge : SecantConvex (fun x => (b.rate - prevRate) * max 0 (x - b.threshold * f)) :=
        secantConvex_smul (b.rate - prevRate) (by linarith) (secantConvex_hinge _)
      intro p q r hpq hqr
      have := secantConvex_add hhinge hrest p q r hpq hqr
      simpa [hingeSum] using this

/-- A single capped bracket term is a difference of hinges. -/
theorem ramp_eq_hinge (a b x : ℚ) (h : a ≤ b) :
    (if a < x then min x b - a else 0) = max 0 (x - a) - max 0 (x - b) := by
  rcases le_or_lt x a with hxa | hxa
  · rw [if_neg (not_lt.mpr hxa), max_eq_left (by linarith), max_eq_left (by linarith)]
    ring
  · rcases le_or_lt x b with hxb | hxb
    · rw [if_pos hxa, min_eq_left hxb, max_eq_right (by linarith),
        max_eq_left (by linarith)]
      ring
    · rw [if_pos hxa, min_eq_right (by linarith), max_eq_right (by linarith),
        max_eq_right (by linarith)]
      ring

/-- The tiered tax of a nonempty, threshold-sorted bracket list equals its
hinge decomposition, up to the previous-rate correction on the first hinge. -/
theorem hingeSum_eq_tiered : ∀ (b : TaxBracket) (rest : List TaxBracket) (prevRate x f : ℚ),
    0 ≤ f →
    List.Pairwise (fun b1 b2 => b1.threshold ≤ b2.threshold) (b :: rest) →
    hingeSum x f prevRate (b :: rest)
      = calculateTieredTax x (b :: rest) f - prevRate * max 0 (x - b.threshold * f)
  | b, [], prevRate, x, f, hf, _ => by
      simp only [hingeSum, calculateTieredTax]
      rcases le_or_lt x (b.threshold * f) with hx | hx
      · rw [if_neg (not_lt.mpr hx), max_eq_left (by linarith)]
        ring
      · rw [if_pos hx, max_eq_right (by linarith)]
        ring
  | b, b2 :: rest2, prevRate, x, f, hf, hsort => by
      have ht : b.threshold * f ≤ b2.threshold * f :=
        mul_le_mul_of_nonneg_right ((List.pairwise_cons.mp hsort).1 b2 (by simp)) hf
      have ih := hingeSum_eq_tiered b2 rest2 b.rate x f hf (List.Pairwise.of_cons hsort)
      have hterm : (if b.threshold * f < x then
            (min x (b2.threshold * f) - b.threshold * f) * b.rate else 0)
          = (max 0 (x - b.threshold * f) - max 0 (x - b2.threshold * f)) * b.rate := by
        rw [← ramp_eq_hinge (b.threshold * f) (b2.threshold * f) x ht, ite_mul, zero_mul]
      have hdef : calculateTieredTax x (b :: b2 :: rest2) f
          = (if b.threshold * f < x then
              (min x (b2.threshold * f) - b.threshold * f) * b.rate else 0)
            + calculateTieredTax x (b2 :: rest2) f := rfl
      show (b.rate - prevRate) * max 0 (x - b.threshold * f) + hingeSum x f b.rate (b2 :: rest2)
        = calculateTieredTax x (b :: b2 :: rest2) f - prevRate * max 0 (x - b.threshold * f)
      rw [ih, hdef, hterm]
      ring

/-- The tiered tax over brackets sorted by threshold with nondecreasing,
nonnegative rates is `SecantConvex` in income. -/
theorem calculateTieredTax_secantConvex (bs : List TaxBracket) (f : ℚ) (hf : 0 ≤ f)
    (hthr : List.Pairwise (fun b1 b2 => b1.threshold ≤ b2.threshold) bs)
    (hrate : List.Pairwise (fun b1 b2 => b1.rate ≤ b2.rate) bs)
    (hnn : ∀ b ∈ bs, 0 ≤ b.rate) :
    SecantConvex (fun x => calculateTieredTax x bs f) := by
  cases bs with
  | nil =>
      intro a b c hab hbc
      simp [calculateTieredTax]
  | cons b rest =>
      have hs : SecantConvex (fun x => hingeSum x f 0 (b :: rest)) :=
        hingeSum_secantConvex (b :: rest) 0 f hrate
          (by
            intro b0 hb0
            simp only [List.head?, Option.mem_def, Option.some.injEq] at hb0
            exact hb0 ▸ hnn b (by simp))
      have e : ∀ x, calculateTieredTax x (b :: rest) f = hingeSum x f 0 (b :: rest) := by
        intro x
        rw [hingeSum_eq_tiered b rest 0 x f hf hthr]
        ring
      intro p q r hpq hqr
      dsimp only
      rw [e p, e q, e r]
      exact hs p q r hpq hqr

/-- The tiered tax over threshold-sorted brackets with nonnegative rates is
nondecreasing in income. -/
theorem calculateTieredTax_mono : ∀ (bs : List TaxBracket) (f x y : ℚ), 0 ≤ f →
    List.Pairwise (fun b1 b2 => b1.threshold ≤ b2.threshold) bs →
    (∀ b ∈ bs, 0 ≤ b.rate) → x ≤ y →
    calculateTieredTax x bs f ≤ calculateTieredTax y bs f
  | [], f, x, y, _, _, _, _ => le_refl 0
  | [b], f, x, y, hf, _, hnn, hxy => by
      have hr : 0 ≤ b.rate := hnn b (by simp)
      simp only [calculateTieredTax]
      split_ifs with h1 h2 h2
      · exact mul_le_mul_of_nonneg_right (by linarith) hr
      · exact absurd (lt_of_lt_of_le h1 hxy) h2
      · exact mul_nonneg (by linarith) hr
      · exact le_refl 0
  | b :: b2 :: rest, f, x, y, hf, hthr, hnn, hxy => by
      have hr : 0 ≤ b.rate := hnn b (by simp)
      have ht : b.threshold * f ≤ b2.threshold * f :=
        mul_le_mul_of_nonneg_right ((List.pairwise_cons.mp hthr).1 b2 (by simp)) hf
      have ihtail := calculateTieredTax_mono (b2 :: rest) f x y hf
        (List.Pairwise.of_cons hthr) (fun c hc => hnn c (by simp [hc])) hxy
      have hhead : (if b.threshold * f < x then
            (min x (b2.threshold * f) - b.threshold * f) * b.rate else 0)
          ≤ (if b.threshold * f < y then
            (min y (b2.threshold * f) - b.threshold * f) * b.rate else 0) := by
        split_ifs with h1 h2 h2
        · refine mul_le_mul_of_nonneg_right ?_ hr
          have := min_le_min hxy (le_refl (b2.threshold * f))
          linarith
        · exact absurd (lt_of_lt_of_le h1 hxy) h2
        · refine mul_nonneg ?_ hr
          have : b.threshold * f ≤ min y (b2.threshold * f) := le_min (le_of_lt h2) ht
          linarith
        · exact le_refl 0
      show (if b.threshold * f < x then
            (min x (b2.threshold * f) - b.threshold * f) * b.rate else 0)
          + calculateTieredTax x (b2 :: rest) f
        ≤ (if b.threshold * f < y then
            (min y (b2.threshold * f) - b.threshold * f) * b.rate else 0)
          + calculateTieredTax y (b2 :: rest) f
      exact add_le_add hhead ihtail

/-- The Ontario Health Premium is nondecreasing in income. -/
theorem calculateOHP_mono (f x y : ℚ) (hf : 0 ≤ f) (hxy : x ≤ y) :
    calculateOHP x f ≤ calculateOHP y f := by
  unfold calculateOHP
  split_ifs <;> linarith

/-- The Ontario surtax is nondecreasing in its basic-tax argument. -/
theorem calculateOntarioSurtax_mono (f a b : ℚ) (hf : 0 ≤ f) (hab : a ≤ b) :
    calculateOntarioSurtax a f ≤ calculateOntarioSurtax b f := by
  unfold calculateOntarioSurtax
  split_ifs <;> nlinarith

/-- A successful association-list lookup returns one of the stored values. -/
theorem lookup_mem_snd : ∀ (l : List (String × List TaxBracket)) (k : String)
    (v : List TaxBracket), List.lookup k l = some v → v ∈ l.map Prod.snd
  | [], _, _, h => by simp [List.lookup] at h
  | (a, b) :: rest, k, v, h => by
      simp only [List.lookup] at h
      cases hk : (k == a) with
      | true =>
          rw [hk] at h
          simp only [Option.some.injEq] at h
          subst h
          simp
      | false =>
          rw [hk] at h
          simpa using Or.inr (lookup_mem_snd rest k v h)

/-- Every resolved provincial bracket list (any code, including the fallback)
is threshold-sorted with nondecreasing, nonnegative rates. -/
theorem resolvedBrackets_props (p : String) :
    List.Pairwise (fun b1 b2 => b1.threshold ≤ b2.threshold) (resolvedBrackets p)
    ∧ List.Pairwise (fun b1 b2 => b1.rate ≤ b2.rate) (resolvedBrackets p)
    ∧ ∀ b ∈ resolvedBrackets p, 0 ≤ b.rate := by
  have key : ∀ l, provincialBrackets p = some l →
      List.Pairwise (fun b1 b2 => b1.threshold ≤ b2.threshold) l
      ∧ List.Pairwise (fun b1 b2 => b1.rate ≤ b2.rate) l
      ∧ ∀ b ∈ l, 0 ≤ b.rate := by
    intro l hl
    have hall : ∀ l0 ∈ provincialTable.map Prod.snd,
        List.Pairwise (fun b1 b2 => b1.threshold ≤ b2.threshold) l0
        ∧ List.Pairwise (fun b1 b2 => b1.rate ≤ b2.rate) l0
        ∧ ∀ b ∈ l0, 0 ≤ b.rate := by decide
    exact hall l (lookup_mem_snd provincialTable p l hl)
  unfold resolvedBrackets
  cases hm : provincialBrackets p with
  | none =>
      simp only [Option.getD_none]
      exact ⟨by decide, by decide, by decide⟩
  | some l =>
      simp only [Option.getD_some]
      exact key l hm

/-- The federal bracket list is threshold-sorted with nondecreasing,
nonnegative rates. -/
theorem federalBrackets_props :
    List.Pairwise (fun b1 b2 => b1.threshold ≤ b2.threshold) federalBrackets
    ∧ List.Pairwise (fun b1 b2 => b1.rate ≤ b2.rate) federalBrackets
    ∧ ∀ b ∈ federalBrackets, 0 ≤ b.rate := ⟨by decide, by decide, by decide⟩

/-- C5 amended, part 1: holding jurisdiction, a nonnegative inflation factor,
age, eligible pension income and dividends fixed, `calculateIncomeTax` is
nondecreasing in taxable income. -/
theorem calculateIncomeTax_mono (province : String) (f age epi div x y : ℚ)
    (hf : 0 ≤ f) (hxy : x ≤ y) :
    calculateIncomeTax x province f age epi div
      ≤ calculateIncomeTax y province f age epi div := by
  obtain ⟨hpthr, _, hpnn⟩ := resolvedBrackets_props province
  obtain ⟨hfthr, _, hfnn⟩ := federalBrackets_props
  have hfed := calculateTieredTax_mono federalBrackets f x y hf hfthr hfnn hxy
  have hprov := calculateTieredTax_mono (resolvedBrackets province) f x y hf hpthr hpnn hxy
  have hohp := calculateOHP_mono f x y hf hxy
  have hsur := calculateOntarioSurtax_mono f
    (calculateTieredTax x (resolvedBrackets province) f
      - resolvedBPA province * f * firstBracketRate (resolvedBrackets province))
    (calculateTieredTax y (resolvedBrackets province) f
      - resolvedBPA province * f * firstBracketRate (resolvedBrackets province))
    hf (by linarith)
  have hage : age ≥ 65 →
      max 0 (9028 * f - max 0 ((y - 45522 * f) * 0.15)) * 0.15
        + max 0 (9028 * f - max 0 ((y - 45522 * f) * 0.15)) * 0.05
      ≤ max 0 (9028 * f - max 0 ((x - 45522 * f) * 0.15)) * 0.15
        + max 0 (9028 * f - max 0 ((x - 45522 * f) * 0.15)) * 0.05 := by
    intro _
    have hinner : max 0 ((x - 45522 * f) * 0.15) ≤ max 0 ((y - 45522 * f) * 0.15) :=
      max_le_max (le_refl 0) (by nlinarith)
    have houter : max 0 (9028 * f - max 0 ((y - 45522 * f) * 0.15))
        ≤ max 0 (9028 * f - max 0 ((x - 45522 * f) * 0.15)) :=
      max_le_max (le_refl 0) (by linarith)
    nlinarith
  simp only [calculateIncomeTax]
  refine max_le_max (le_refl 0) ?_
  split_ifs with hON hage65 hepi hdiv hepi2 hdiv2 hage65b hepib hdivb hepib2 hdivb2 <;>
    first
      | (linarith [hage (by assumption)])
      | linarith

/-- C5 amended (single statement): monotonicity of the full tax computation in
taxable income, together with secant-convexity of `calculateTieredTax` for any
bracket sequence sorted by ascending threshold whose rates are nondecreasing
and nonnegative (as every shipped table is).  Convexity of the full
`calculateIncomeTax` fails — see the counterexample at the Ontario Health
Premium step. -/
theorem c5_tax_monotone_and_tiered_convex :
    (∀ (province : String) (f age epi div x y : ℚ), 0 ≤ f → x ≤ y →
      calculateIncomeTax x province f age epi div
        ≤ calculateIncomeTax y province f age epi div)
    ∧ (∀ (bs : List TaxBracket) (f : ℚ), 0 ≤ f →
        List.Pairwise (fun b1 b2 => b1.threshold ≤ b2.threshold) bs →
        List.Pairwise (fun b1 b2 => b1.rate ≤ b2.rate) bs →
        (∀ b ∈ bs, 0 ≤ b.rate) →
        ∀ a b c : ℚ, a ≤ b → b ≤ c →
          (c - a) * calculateTieredTax b bs f
            ≤ (c - b) * calculateTieredTax a bs f + (b - a) * calculateTieredTax c bs f) :=
  ⟨fun province f age epi div x y hf hxy =>
      calculateIncomeTax_mono province f age epi div x y hf hxy,
   fun bs f hf hthr hrate hnn a b c hab hbc =>
      calculateTieredTax_secantConvex bs f hf hthr hrate hnn a b c hab hbc⟩

/-- Concrete instantiation of `c5_tax_monotone_and_tiered_convex`: BC tax is
monotone from 10,000 to 20,000, and the federal schedule satisfies the secant
inequality on the triple 50,000 / 60,000 / 70,000 straddling a threshold. -/
theorem c5_tax_monotone_and_tiered_convex_witness :
    calculateIncomeTax 10000 "BC" 1 0 0 0 ≤ calculateIncomeTax 20000 "BC" 1 0 0 0
    ∧ (70000 - 50000 : ℚ) * calculateTieredTax 60000 federalBrackets 1
        ≤ (70000 - 60000) * calculateTieredTax 50000 federalBrackets 1
          + (60000 - 50000) * calculateTieredTax 70000 federalBrackets 1 :=
  ⟨c5_tax_monotone_and_tiered_convex.1 "BC" 1 0 0 0 10000 20000 (by norm_num) (by norm_num),
   c5_tax_monotone_and_tiered_convex.2 federalBrackets 1 (by norm_num) (by decide)
     (by decide) (by decide) 50000 60000 70000 (by norm_num) (by norm_num)⟩

/-- Telescoping identity behind the surplus waterfall: four successive takes
plus the leftover (if positive) recover the whole surplus. -/
theorem waterfallSum (surplus a1 a2 a3 a4 : ℚ)
    (h4 : 0 ≤ surplus - a1 - a2 - a3 - a4) :
    a1 + a2 + (a3 + a4)
      + (if surplus - a1 - a2 - a3 - a4 > 0 then surplus - a1 - a2 - a3 - a4 else 0)
      = surplus := by
  split_ifs with h
  · ring
  · have h0 : surplus - a1 - a2 - a3 - a4 = 0 := le_antisymm (not_lt.mp h) h4
    linarith

/-- The primary TFSA sub-step never takes more than the remaining surplus. -/
theorem surplusAddPT_rem (pAlive : Bool) (r l : ℚ) (hr : 0 ≤ r) :
    0 ≤ r - surplusAddPT pAlive r l := by
  unfold surplusAddPT
  split_ifs with h
  · have := min_le_left r l
    linarith
  · linarith

/-- The spouse TFSA sub-step never takes more than the remaining surplus. -/
theorem surplusAddST_rem (s : Option Person) (sAlive : Bool) (r l : ℚ) (hr : 0 ≤ r) :
    0 ≤ r - surplusAddST s sAlive r l := by
  cases s with
  | none => simpa [surplusAddST] using hr
  | some sp =>
      simp only [surplusAddST]
      split_ifs with h
      · have := min_le_left r l
        linarith
      · linarith

/-- The RRSP sub-step never takes more than the remaining surplus. -/
theorem surplusAddR_rem (alive : Bool) (age : ℚ) (person : Person) (r f : ℚ) (hr : 0 ≤ r) :
    0 ≤ r - surplusAddR alive age person r f := by
  unfold surplusAddR
  split_ifs with h
  · have := min_le_left r (min (person.currentIncome * 0.18) (31000 * f))
    linarith
  · linarith

/-- The spouse RRSP sub-step never takes more than the remaining surplus. -/
theorem surplusAddSR_rem (s : Option Person) (sAge : Option ℚ) (sAlive : Bool)
    (r f : ℚ) (hr : 0 ≤ r) : 0 ≤ r - surplusAddSR s sAge sAlive r f := by
  cases s with
  | none => simpa [surplusAddSR] using hr
  | some sp =>
      cases sAge with
      | none => simpa [surplusAddSR] using hr
      | some sa => simpa [surplusAddSR] using surplusAddR_rem sAlive sa sp r f hr

/-- The three reinvestment amounts reported by `allocateSurplus` always sum
back to the allocated surplus. -/
theorem allocateSurplus_sum (p : Person) (s : Option Person) (pAlive sAlive : Bool)
    (pAge : ℚ) (sAge : Option ℚ) (surplus f : ℚ) (hsur : 0 ≤ surplus) :
    (allocateSurplus p s pAlive sAlive pAge sAge surplus f).reinvestedTFSA
      + (allocateSurplus p s pAlive sAlive pAge sAge surplus f).reinvestedRRSP
      + (allocateSurplus p s pAlive sAlive pAge sAge surplus f).reinvestedNonReg
      = surplus := by
  dsimp only [allocateSurplus]
  exact waterfallSum surplus _ _ _ _
    (surplusAddSR_rem _ _ _ _ _
      (surplusAddR_rem _ _ _ _ _
        (surplusAddST_rem _ _ _ _
          (surplusAddPT_rem _ _ _ hsur))))

/-- `surplusStep` reports reinvestments summing to the surplus, and reports
all-zero reinvestments when the surplus is zero. -/
theorem surplusStep_sum (env : YearEnv) (stw : DeficitState) (surplus : ℚ)
    (hsur : 0 ≤ surplus) :
    ((surplusStep env stw surplus).reinvestedTFSA
        + (surplusStep env stw surplus).reinvestedRRSP
        + (surplusStep env stw surplus).reinvestedNonReg = surplus)
    ∧ (surplus = 0 →
        (surplusStep env stw surplus).reinvestedTFSA = 0
        ∧ (surplusStep env stw surplus).reinvestedRRSP = 0
        ∧ (surplusStep env stw surplus).reinvestedNonReg = 0) := by
  unfold surplusStep
  split_ifs with h
  · refine ⟨allocateSurplus_sum _ _ _ _ _ _ _ _ hsur, ?_⟩
    intro h0
    rw [h0] at h
    exact absurd h (lt_irrefl 0)
  · have h0 : surplus = 0 := le_antisymm (not_lt.mp h) hsur
    exact ⟨by simpa using h0.symm, fun _ => ⟨rfl, rfl, rfl⟩⟩

/-- The result record of one simulated year reports reinvestments summing to
its household surplus, all zero in deficit years. -/
theorem simYear_reinvest (inputs : SimulationInputs) (stochastic : Bool) (z : ℕ → ℚ)
    (yearOffset : ℕ) (p : Person) (s : Option Person) :
    ((simYear inputs stochastic z yearOffset p s).2.2.reinvestedTFSA
        + (simYear inputs stochastic z yearOffset p s).2.2.reinvestedRRSP
        + (simYear inputs stochastic z yearOffset p s).2.2.reinvestedNonReg
        = (simYear inputs stochastic z yearOffset p s).2.2.householdSurplus)
    ∧ ((simYear inputs stochastic z yearOffset p s).2.2.householdSurplus = 0 →
        (simYear inputs stochastic z yearOffset p s).2.2.reinvestedTFSA = 0
        ∧ (simYear inputs stochastic z yearOffset p s).2.2.reinvestedRRSP = 0
        ∧ (simYear inputs stochastic z yearOffset p s).2.2.reinvestedNonReg = 0) := by
  simp only [simYear, buildRecord]
  refine surplusStep_sum _ _ _ ?_
  split_ifs with h
  · linarith
  · exact le_refl 0

/-- Every record produced by the year loop satisfies the C10 reinvestment
identities. -/
theorem simLoop_reinvest (inputs : SimulationInputs) (stochastic : Bool) (z : ℕ → ℚ) :
    ∀ (fuel yearOffset : ℕ) (p : Person) (s : Option Person) (i : ℕ)
      (rec : SimulationResult),
      (simLoop inputs stochastic z fuel yearOffset p s).get? i = some rec →
      (rec.reinvestedTFSA + rec.reinvestedRRSP + rec.reinvestedNonReg
          = rec.householdSurplus)
      ∧ (rec.householdSurplus = 0 →
          rec.reinvestedTFSA = 0 ∧ rec.reinvestedRRSP = 0 ∧ rec.reinvestedNonReg = 0)
  | 0, yearOffset, p, s, i, rec, h => by
      simp [simLoop] at h
  | fuel + 1, yearOffset, p, s, i, rec, h => by
      rw [simLoop] at h
      split at h
      · simp at h
      · cases i with
        | zero =>
            simp only [List.get?_cons_zero, Option.some.injEq] at h
            subst h
            exact simYear_reinvest inputs stochastic z yearOffset p s
        | succ n =>
            simp only [List.get?_cons_succ] at h
            exact simLoop_reinvest inputs stochastic z fuel (yearOffset + 1) _ _ n rec h

/-- C10: for every result record emitted by `runSimulation`, the recorded
reinvestment amounts satisfy
`reinvestedTFSA + reinvestedRRSP + reinvestedNonReg = householdSurplus`: the
surplus waterfall always allocates the entire surplus, with the open account
absorbing whatever the TFSA and RRSP steps did not take, and all three
amounts are 0 in deficit years (`householdSurplus = 0`). -/
theorem c10_reinvested_sums_to_surplus (inputs : SimulationInputs) (stochastic : Bool)
    (z : ℕ → ℚ) (i : ℕ) (rec : SimulationResult)
    (h : (runSimulation inputs stochastic z).get? i = some rec) :
    (rec.reinvestedTFSA + rec.reinvestedRRSP + rec.reinvestedNonReg
        = rec.householdSurplus)
    ∧ (rec.householdSurplus = 0 →
        rec.reinvestedTFSA = 0 ∧ rec.reinvestedRRSP = 0 ∧ rec.reinvestedNonReg = 0) := by
  unfold runSimulation at h
  dsimp only at h
  split_ifs at h with h1 h2 h3 h4 h5
  · simp at h
  · simp at h
  · simp at h
  · simp at h
  · simp at h
  · exact simLoop_reinvest inputs stochastic z _ 0 inputs.person inputs.spouse i rec h

/-- Concrete instantiation of the C10 theorem on the first record of an
evaluable run. -/
theorem c10_reinvested_sums_to_surplus_witness :
    (((runSimulation c10Inputs false (fun _ => 0)).get? 0).getD defaultSimResult).reinvestedTFSA
      + (((runSimulation c10Inputs false (fun _ => 0)).get? 0).getD defaultSimResult).reinvestedRRSP
      + (((runSimulation c10Inputs false (fun _ => 0)).get? 0).getD defaultSimResult).reinvestedNonReg
      = (((runSimulation c10Inputs false (fun _ => 0)).get? 0).getD defaultSimResult).householdSurplus :=
  (c10_reinvested_sums_to_surplus c10Inputs false (fun _ => 0) 0
    (((runSimulation c10Inputs false (fun _ => 0)).get? 0).getD defaultSimResult) (by rfl)).1

/-- C2: in the deficit waterfall, the open (non-registered) and tax-free
steps pool the two living spouses' balances and draw pro-rata by each
spouse's share of the combined balance; the deferred (RRSP) step instead
splits the remaining net requirement 50/50 between the living spouses — each
half solved against that spouse's own tax base by `doRRSPWithdraw` —
regardless of their relative balances. -/
theorem c2_waterfall_split :
    (∀ (ctx : DeficitCtx) (st : DeficitState) (sp : Person),
      ctx.pAlive = true → ctx.sAlive = true → st.s = some sp →
      0 < st.p.nonRegistered.balance → 0 < sp.nonRegistered.balance →
      0 < st.remainingDeficit →
      (withdrawNonReg ctx st).pNonRegWithdrawal
        = st.pNonRegWithdrawal
          + st.p.nonRegistered.balance
              / (st.p.nonRegistered.balance + sp.nonRegistered.balance)
            * min (st.p.nonRegistered.balance + sp.nonRegistered.balance) st.remainingDeficit
      ∧ (withdrawNonReg ctx st).sNonRegWithdrawal
        = st.sNonRegWithdrawal
          + sp.nonRegistered.balance
              / (st.p.nonRegistered.balance + sp.nonRegistered.balance)
            * min (st.p.nonRegistered.balance + sp.nonRegistered.balance) st.remainingDeficit)
    ∧ (∀ (ctx : DeficitCtx) (st : DeficitState) (sp : Person),
      ctx.pAlive = true → ctx.sAlive = true → st.s = some sp →
      0 < st.p.tfsa.balance → 0 < sp.tfsa.balance →
      0 < st.remainingDeficit →
      (withdrawTFSA ctx st).pTFSAWithdrawal
        = st.pTFSAWithdrawal
          + st.p.tfsa.balance / (st.p.tfsa.balance + sp.tfsa.balance)
            * min (st.p.tfsa.balance + sp.tfsa.balance) st.remainingDeficit
      ∧ (withdrawTFSA ctx st).sTFSAWithdrawal
        = st.sTFSAWithdrawal
          + sp.tfsa.balance / (st.p.tfsa.balance + sp.tfsa.balance)
            * min (st.p.tfsa.balance + sp.tfsa.balance) st.remainingDeficit)
    ∧ (∀ (ctx : DeficitCtx) (st : DeficitState) (sp : Person)
        (bp bs : PersonAnnualBase),
      ctx.pAlive = true → ctx.sAlive = true → st.s = some sp →
      ctx.pBase = some bp → ctx.sBase = some bs →
      0 < st.remainingDeficit →
      (withdrawRRSP ctx st).pExtraRRSPGross
        = st.pExtraRRSPGross
          + (doRRSPWithdraw st.p bp (st.remainingDeficit / 2) st.pRealizedGains
              ctx.province ctx.inflationFactor).2.1
      ∧ (withdrawRRSP ctx st).sExtraRRSPGross
        = st.sExtraRRSPGross
          + (doRRSPWithdraw sp bs (st.remainingDeficit / 2) st.sRealizedGains
              ctx.province ctx.inflationFactor).2.1) := by
  refine ⟨?_, ?_, ?_⟩
  · intro ctx st sp hp hs hss hpb hsb hrd
    have htot : 0 < st.p.nonRegistered.balance + sp.nonRegistered.balance := by linarith
    have htake : 0 < min (st.p.nonRegistered.balance + sp.nonRegistered.balance)
        st.remainingDeficit := lt_min htot hrd
    have hpsh : 0 < st.p.nonRegistered.balance
        / (st.p.nonRegistered.balance + sp.nonRegistered.balance)
        * min (st.p.nonRegistered.balance + sp.nonRegistered.balance) st.remainingDeficit :=
      mul_pos (div_pos hpb htot) htake
    have hssh : 0 < sp.nonRegistered.balance
        / (st.p.nonRegistered.balance + sp.nonRegistered.balance)
        * min (st.p.nonRegistered.balance + sp.nonRegistered.balance) st.remainingDeficit :=
      mul_pos (div_pos hsb htot) htake
    simp only [withdrawNonReg, drawNonRegP, drawNonRegS, hss, hp, hs,
      if_neg (not_le.mpr hrd), eq_self_iff_true,
      if_true, if_pos htot, if_pos hpb, if_pos hsb, if_pos hpsh, if_pos hssh]
    exact ⟨trivial, trivial⟩
  · intro ctx st sp hp hs hss hpb hsb hrd
    have htot : 0 < st.p.tfsa.balance + sp.tfsa.balance := by linarith
    have htake : 0 < min (st.p.tfsa.balance + sp.tfsa.balance) st.remainingDeficit :=
      lt_min htot hrd
    have hpsh : 0 < st.p.tfsa.balance / (st.p.tfsa.balance + sp.tfsa.balance)
        * min (st.p.tfsa.balance + sp.tfsa.balance) st.remainingDeficit :=
      mul_pos (div_pos hpb htot) htake
    have hssh : 0 < sp.tfsa.balance / (st.p.tfsa.balance + sp.tfsa.balance)
        * min (st.p.tfsa.balance + sp.tfsa.balance) st.remainingDeficit :=
      mul_pos (div_pos hsb htot) htake
    simp only [withdrawTFSA, drawTFSAP, drawTFSAS, hss, hp, hs,
      if_neg (not_le.mpr hrd), eq_self_iff_true,
      if_true, if_pos htot, if_pos hpb, if_pos hsb, if_pos hpsh, if_pos hssh]
    exact ⟨trivial, trivial⟩
  · intro ctx st sp bp bs hp hs hss hbp hbs hrd
    simp only [withdrawRRSP, rrspDrawP, rrspDrawS, hss, hp, hs, hbp, hbs,
      if_neg (not_le.mpr hrd),
      Option.isSome_some, Bool.and_true, Bool.true_and, eq_self_iff_true, if_true]
    exact ⟨trivial, trivial⟩

/-- Concrete instantiation of the C2 theorem: balances 600/400 (open),
30/10 (tax-free) and a $500 remaining deficit give pro-rata draws 300/200 and
30/10, while the deferred step draws the same gross ≈ $250.98 for each spouse
(half the net requirement each, bisection-solved). -/
theorem c2_waterfall_split_witness :
    (withdrawNonReg c2ctx c2st).pNonRegWithdrawal = 300
    ∧ (withdrawNonReg c2ctx c2st).sNonRegWithdrawal = 200
    ∧ (withdrawTFSA c2ctx c2st).pTFSAWithdrawal = 30
    ∧ (withdrawTFSA c2ctx c2st).sTFSAWithdrawal = 10
    ∧ (withdrawRRSP c2ctx c2st).pExtraRRSPGross = 250.9765625
    ∧ (withdrawRRSP c2ctx c2st).sExtraRRSPGross = 250.9765625 := by
  obtain ⟨h1, h2, h3⟩ := c2_waterfall_split
  have e1 := h1 c2ctx c2st c2spouse rfl rfl rfl (by decide) (by decide) (by decide)
  have e2 := h2 c2ctx c2st c2spouse rfl rfl rfl (by decide) (by decide) (by decide)
  have e3 := h3 c2ctx c2st c2spouse c2base c2base rfl rfl rfl rfl rfl (by decide)
  refine ⟨?_, ?_, ?_, ?_, ?_, ?_⟩
  · rw [e1.1]; decide
  · rw [e1.2]; decide
  · rw [e2.1]; decide
  · rw [e2.2]; decide
  · rw [e3.1]; decide
  · rw [e3.2]; decide

/-- A successful `lookupQ` returns one of the table's values. -/
theorem lookupQ_mem_snd : ∀ (a : ℚ) (l : List (ℚ × ℚ)) (v : ℚ),
    lookupQ a l = some v → v ∈ l.map Prod.snd
  | a, [], v, h => by simp [lookupQ] at h
  | a, (k, w) :: rest, v, h => by
      rw [lookupQ] at h
      split_ifs at h with hk
      · simp only [Option.some.injEq] at h
        subst h
        simp
      · simp only [List.map_cons, List.mem_cons]
        exact Or.inr (lookupQ_mem_snd a rest v h)

/-- The RRIF minimum factor never exceeds 1 (so the mandatory withdrawal
never exceeds the balance). -/
theorem getRRIFMinFactor_le_one (age : ℚ) : getRRIFMinFactor age ≤ 1 := by
  unfold getRRIFMinFactor
  split_ifs with h1 h2
  · norm_num
  · norm_num
  · unfold jsOrQ
    rcases hl : lookupQ age rrifMinimums with _ | v
    · norm_num
    · have hv : v ∈ rrifMinimums.map Prod.snd := lookupQ_mem_snd age rrifMinimums v hl
      have hall : ∀ w ∈ rrifMinimums.map Prod.snd, w ≤ 1 := by decide
      show (if v = 0 then (0.06 : ℚ) else v) ≤ 1
      split_ifs with h0
      · norm_num
      · exact hall v hv

/-- JavaScript rounding of a nonnegative number is nonnegative. -/
theorem jsRound_nonneg (x : ℚ) (hx : 0 ≤ x) : 0 ≤ jsRound x := by
  unfold jsRound
  have : (0 : ℤ) ≤ ⌊x + 1 / 2⌋ := Int.floor_nonneg.mpr (by linarith)
  exact_mod_cast this

/-- The base-year step (RRIF minimum and voluntary melt, both capped by the
available balance) preserves the person invariant. -/
theorem simulatePersonBaseYear_inv (mix0 : AssetMix) (person : Person) (age : ℚ)
    (province : String) (rates : ReturnRates) (f : ℚ) (h : PersonInv mix0 person) :
    PersonInv mix0 (simulatePersonBaseYear person age province rates f).1 := by
  obtain ⟨⟨hr, ht, hn⟩, hm⟩ := h
  have hfac := getRRIFMinFactor_le_one age
  have h3 : person.rrsp.balance * getRRIFMinFactor age ≤ person.rrsp.balance := by
    nlinarith
  refine ⟨⟨?_, ht, hn⟩, hm⟩
  show 0 ≤ (simulatePersonBaseYear person age province rates f).1.rrsp.balance
  dsimp only [simulatePersonBaseYear]
  split_ifs with h1 h2 h2
  · have h4 := min_le_left
      (person.rrsp.balance - person.rrsp.balance * getRRIFMinFactor age)
      (person.rrspMeltAmount.getD 0)
    linarith
  · linarith
  · have h4 := min_le_left (person.rrsp.balance - 0) (person.rrspMeltAmount.getD 0)
    linarith
  · linarith

/-- `doWithdraw` caps the gross at the deferred balance, so it preserves the
person invariant. -/
theorem doRRSPWithdraw_inv (mix0 : AssetMix) (personObj : Person)
    (base : PersonAnnualBase) (netReq myGains : ℚ) (province : String)
    (inflationFactor : ℚ) (h : PersonInv mix0 personObj) :
    PersonInv mix0
      (doRRSPWithdraw personObj base netReq myGains province inflationFactor).1 := by
  obtain ⟨⟨hr, ht, hn⟩, hm⟩ := h
  unfold doRRSPWithdraw
  split_ifs with h1
  · exact ⟨⟨hr, ht, hn⟩, hm⟩
  · refine ⟨⟨?_, ht, hn⟩, hm⟩
    show 0 ≤ personObj.rrsp.balance
      - min ((solveGrossWithdrawal netReq (base.taxableIncome + myGains * 0.5) base.oasIncome
          province inflationFactor personObj.age).gross) personObj.rrsp.balance
    have h4 := min_le_right
      ((solveGrossWithdrawal netReq (base.taxableIncome + myGains * 0.5) base.oasIncome
          province inflationFactor personObj.age).gross) personObj.rrsp.balance
    linarith

/-- End-of-year growth preserves the person invariant whenever both the
deferred/tax-free factor `1 + capitalGrowth` and the open-account factor
`1 + capitalGain·capitalGrowth` are nonnegative. -/
theorem applyGrowth_inv (mix0 : AssetMix) (rates : ReturnRates) (person : Person)
    (hg : 0 ≤ 1 + rates.capitalGrowth)
    (hm0 : 0 ≤ 1 + mix0.capitalGain * rates.capitalGrowth)
    (h : PersonInv mix0 person) : PersonInv mix0 (applyGrowth rates person) := by
  obtain ⟨⟨hr, ht, hn⟩, hm⟩ := h
  refine ⟨⟨?_, ?_, ?_⟩, ?_⟩
  · exact mul_nonneg hr hg
  · exact mul_nonneg ht hg
  · show 0 ≤ person.nonRegistered.balance
      * (1 + person.nonRegistered.assetMix.capitalGain * rates.capitalGrowth)
    rw [hm]
    exact mul_nonneg hn hm0
  · exact hm

end CanRetire
